import Mathlib

/-!
# Solar-system simulation: orbital integrator, tour sequencer, camera interpolator

A shallow embedding of the logic of `src/solar-system.js`
(class `SolarSystemSimulation`).

Modelling conventions.

* JavaScript numbers are modelled as elements of a linearly ordered field `K`
  with exact arithmetic (rounding of IEEE doubles is not modelled).  All
  definitions are polymorphic in `K`, hence executable over `ℚ`; theorems that
  need the values of cosine and sine are stated over `ℝ`.
* The host library `Math` (`Math.PI`, `Math.cos`, `Math.sin`) is a parameter,
  the structure `MathLib`.
* `THREE.Clock.getDelta()` is an input: `updatePlanetPositions` receives the
  value it returns as the argument `deltaTime`.  `updatePlanetPositionsAt` adds
  the clock itself, for the claims about pausing and resuming.
* Timers (`setTimeout`), camera interpolation requests and the body ids read by
  the tour are recorded in bookkeeping fields of the state.
* `OrbitControls` is library code: the camera interpolator takes the effect of
  `controls.update()` on the camera position and the look-at target as a
  parameter, and `orbitControlsClamp` models its distance clamp.
-/

namespace SolarSystem

/-! ## Data model -/

/-- Three.js `Vector3`. -/
structure Vec3 (K : Type) where
  x : K
  y : K
  z : K

/-- The part of the JavaScript `Math` object the simulation uses. -/
structure MathLib (K : Type) where
  PI : K
  cos : K → K
  sin : K → K

/-- One entry of `planetData` (constructor, lines 29-147), restricted to the
fields read by the simulation logic; the display-only fields (radius, colour,
mass, temperature, moons, atmosphere) are omitted. -/
structure PlanetData (K : Type) where
  name : String
  distance : K
  orbitalPeriod : K
  rotationPeriod : K
  orbitalInclination : K

/-- A planet mesh: `userData.data`, `userData.angle`, `userData.rotationAngle`,
`position` and `rotation.y`. -/
structure Planet (K : Type) where
  data : PlanetData K
  angle : K
  rotationAngle : K
  position : Vec3 K
  rotationY : K

/-- The fields of `SolarSystemSimulation` read or written by the modelled
methods (`sunRotationY` and `asteroidBeltRotationY` are `sun.rotation.y` and
`asteroidBelt.rotation.y`).  `pendingTimers`, `cameraRequests` and `visited`
are bookkeeping: the number of `setTimeout` callbacks of `performTourStep` not
yet fired, the arguments of the calls of `animateCameraTo` so far (latest
last), and the body ids read by the executed `performTourStep` calls so far
(latest last). -/
structure Sim (K : Type) where
  planets : List (String × Planet K)
  speed : K
  timeDirection : K
  isPaused : Bool
  isAutoRotating : Bool
  isFollowingEarth : Bool
  isTourMode : Bool
  tourIndex : Nat
  cameraPosition : Vec3 K
  controlsTarget : Vec3 K
  sunRotationY : K
  asteroidBeltRotationY : K
  pendingTimers : Nat
  cameraRequests : List (Vec3 K × Vec3 K)
  visited : List (Option String)

variable {K : Type} [LinearOrderedField K]

/-! ## Constants of the constructor -/

/-- The field `tourPlanets` (line 20). -/
def tourPlanets : List String :=
  ["sun", "mercury", "venus", "earth", "mars", "jupiter", "saturn", "uranus", "neptune"]

/-- The entry `planetData.mercury`. -/
def mercury : PlanetData K :=
  { name := "Mercury", distance := 30, orbitalPeriod := 87.97,
    rotationPeriod := 1407.6, orbitalInclination := 7.005 }

/-- The entry `planetData.venus`. -/
def venus : PlanetData K :=
  { name := "Venus", distance := 45, orbitalPeriod := 224.7,
    rotationPeriod := -5832.5, orbitalInclination := 3.394 }

/-- The entry `planetData.earth`. -/
def earth : PlanetData K :=
  { name := "Earth", distance := 60, orbitalPeriod := 365.25,
    rotationPeriod := 24, orbitalInclination := 0 }

/-- The entry `planetData.mars`. -/
def mars : PlanetData K :=
  { name := "Mars", distance := 75, orbitalPeriod := 686.98,
    rotationPeriod := 24.6, orbitalInclination := 1.850 }

/-- The entry `planetData.jupiter`. -/
def jupiter : PlanetData K :=
  { name := "Jupiter", distance := 110, orbitalPeriod := 4332.59,
    rotationPeriod := 9.9, orbitalInclination := 1.303 }

/-- The entry `planetData.saturn`. -/
def saturn : PlanetData K :=
  { name := "Saturn", distance := 140, orbitalPeriod := 10759.22,
    rotationPeriod := 10.7, orbitalInclination := 2.485 }

/-- The entry `planetData.uranus`. -/
def uranus : PlanetData K :=
  { name := "Uranus", distance := 175, orbitalPeriod := 30685.4,
    rotationPeriod := 17.2, orbitalInclination := 0.773 }

/-- The entry `planetData.neptune`. -/
def neptune : PlanetData K :=
  { name := "Neptune", distance := 210, orbitalPeriod := 60190,
    rotationPeriod := 16.1, orbitalInclination := 1.770 }

/-- The keys of `planetData` other than `sun`, with their entries, in
insertion order: what `createEnhancedPlanets` iterates over after its
`if (planetName === 'sun') return`. -/
def planetData : List (String × PlanetData K) :=
  [("mercury", mercury), ("venus", venus), ("earth", earth), ("mars", mars),
   ("jupiter", jupiter), ("saturn", saturn), ("uranus", uranus), ("neptune", neptune)]

/-- The planet meshes built by `createEnhancedPlanets` (lines 350-385).
`random name` stands for the value of `Math.random() * Math.PI * 2` drawn for
that planet; a new mesh sits at the origin with rotation 0. -/
def createEnhancedPlanets (random : String → K) : List (String × Planet K) :=
  (planetData : List (String × PlanetData K)).map fun e =>
    (e.1, { data := e.2, angle := random e.1, rotationAngle := 0,
            position := ⟨0, 0, 0⟩, rotationY := 0 })

/-- The state in which the constructor reaches its last statement, the first
call `this.animate()` of line 153 (see `constructed` for the state after it):
speed 1, forward time, not paused, no tour, camera at `(0, 80, 150)` looking at
the origin, every mesh at the origin with rotation 0. -/
def initial (random : String → K) : Sim K :=
  { planets := createEnhancedPlanets random
    speed := 1
    timeDirection := 1
    isPaused := false
    isAutoRotating := false
    isFollowingEarth := false
    isTourMode := false
    tourIndex := 0
    cameraPosition := ⟨0, 80, 150⟩
    controlsTarget := ⟨0, 0, 0⟩
    sunRotationY := 0
    asteroidBeltRotationY := 0
    pendingTimers := 0
    cameraRequests := []
    visited := [] }

/-! ## Orbital / rotational integrator (`updatePlanetPositions`, lines 957-999) -/

/-- Three.js `MathUtils.degToRad`: `degrees * (Math.PI / 180)`. -/
def degToRad (M : MathLib K) (degrees : K) : K :=
  degrees * (M.PI / 180)

/-- The constant `eccentricity` of line 972. -/
def eccentricity : K := 0.0167

/-- The radius `r` of line 975. -/
def orbitRadius (M : MathLib K) (data : PlanetData K) (trueAnomaly : K) : K :=
  let semiMajorAxis := data.distance
  semiMajorAxis * (1 - eccentricity * eccentricity) / (1 + eccentricity * M.cos trueAnomaly)

/-- The vector passed to `planet.position.set` (lines 975-985). -/
def orbitPosition (M : MathLib K) (data : PlanetData K) (trueAnomaly : K) : Vec3 K :=
  let r := orbitRadius M data trueAnomaly
  let x := r * M.cos trueAnomaly
  let z := r * M.sin trueAnomaly
  let inclination := degToRad M data.orbitalInclination
  let y := z * M.sin inclination
  let zCorrected := z * M.cos inclination
  ⟨x, y, zCorrected⟩

/-- The body of the `forEach` of `updatePlanetPositions` for one planet
(lines 964-997). -/
def updatePlanet (M : MathLib K) (timeScale deltaTime : K) (planet : Planet K) : Planet K :=
  let data := planet.data
  let orbitalSpeed := (2 * M.PI) / data.orbitalPeriod
  let angle := planet.angle + orbitalSpeed * timeScale * deltaTime * 1000
  let position := orbitPosition M data angle
  if data.rotationPeriod > 0 then
    let rotationSpeed := (2 * M.PI) / data.rotationPeriod
    let rotationAngle := planet.rotationAngle + rotationSpeed * timeScale * deltaTime * 1000
    { planet with angle := angle, position := position,
                  rotationAngle := rotationAngle, rotationY := rotationAngle }
  else
    let rotationSpeed := (2 * M.PI) / |data.rotationPeriod|
    let rotationAngle := planet.rotationAngle - rotationSpeed * timeScale * deltaTime * 1000
    { planet with angle := angle, position := position,
                  rotationAngle := rotationAngle, rotationY := rotationAngle }

/-- The method `updatePlanetPositions`; `deltaTime` is the value returned by
`this.clock.getDelta()` (not read when paused). -/
def updatePlanetPositions (M : MathLib K) (s : Sim K) (deltaTime : K) : Sim K :=
  if s.isPaused then s
  else
    let timeScale := s.speed * 0.001 * s.timeDirection
    { s with planets := s.planets.map fun e => (e.1, updatePlanet M timeScale deltaTime e.2) }

/-- A run of frames: before each frame the controls may have set the direction
(`dir`), then `updatePlanetPositions` runs with the clock delta `dt`. -/
def runFrames (M : MathLib K) (s : Sim K) : List (K × K) → Sim K
  | [] => s
  | (dir, dt) :: frames =>
    runFrames M (updatePlanetPositions M { s with timeDirection := dir } dt) frames

/-- The orbital and rotation angles of all planets, by name. -/
def angles (s : Sim K) : List (String × K × K) :=
  s.planets.map fun e => (e.1, e.2.angle, e.2.rotationAngle)

/-! ## Clock controls -/

/-- The method `togglePause` (lines 785-790). -/
def togglePause (s : Sim K) : Sim K :=
  { s with isPaused := !s.isPaused }

/-- The method `resetTime` (lines 792-799). -/
def resetTime (s : Sim K) : Sim K :=
  { s with speed := 1, timeDirection := 1, isPaused := false }

/-- The method `setCenturyView` (lines 801-805). -/
def setCenturyView (s : Sim K) : Sim K :=
  { s with speed := 50 }

/-- The click handler of `time-reversal` (lines 712-715). -/
def timeReversalClick (s : Sim K) : Sim K :=
  { s with timeDirection := s.timeDirection * -1 }

/-- The method `resetView` (lines 876-886).  `cameraPosition` and
`controlsTarget` are the values assigned by the two `set` calls; the call
`controls.update()` that follows is left out here. -/
def resetView (s : Sim K) : Sim K :=
  { s with cameraPosition := ⟨0, 80, 150⟩, controlsTarget := ⟨0, 0, 0⟩,
           isAutoRotating := false, isFollowingEarth := false, isTourMode := false }

/-! ## Camera interpolator (`animateCameraTo`, lines 838-859) -/

/-- Three.js `Vector3.add`. -/
def Vec3.add (a b : Vec3 K) : Vec3 K :=
  ⟨a.x + b.x, a.y + b.y, a.z + b.z⟩

/-- Three.js `Vector3.lerpVectors`: `v1 + (v2 - v1) * alpha`, per component. -/
def lerpVectors (v1 v2 : Vec3 K) (alpha : K) : Vec3 K :=
  ⟨v1.x + (v2.x - v1.x) * alpha, v1.y + (v2.y - v1.y) * alpha, v1.z + (v2.z - v1.z) * alpha⟩

/-- The constant `duration` of line 841, in milliseconds. -/
def duration : K := 2000

/-- The value `progress` of line 846, from `elapsed = Date.now() - startTime`. -/
def progress (elapsed : K) : K :=
  min (elapsed / duration) 1

/-- The value `easedProgress` of line 847, from `progress`. -/
def easedProgress (progress : K) : K :=
  1 - (1 - progress) ^ 3

/-- What the closure `animate` of `animateCameraTo` captured at the call: the
camera position and look-at target at that moment, and the two arguments. -/
structure CameraAnimation (K : Type) where
  startPosition : Vec3 K
  startTarget : Vec3 K
  targetPosition : Vec3 K
  targetLookAt : Vec3 K

/-- The captures made by `animateCameraTo(targetPosition, targetLookAt)` in
state `s` (lines 839-840). -/
def CameraAnimation.capture (s : Sim K) (targetPosition targetLookAt : Vec3 K) :
    CameraAnimation K :=
  { startPosition := s.cameraPosition, startTarget := s.controlsTarget,
    targetPosition := targetPosition, targetLookAt := targetLookAt }

/-- One run of the closure `animate` (lines 844-856) when
`Date.now() - startTime = elapsed`: the two `lerpVectors` assignments, the call
`controls.update()`, and whether `requestAnimationFrame(animate)` is called
again.  `OrbitControls` is library code: `update position target` stands for
what its `update()` makes of `camera.position` and `controls.target`, which it
reads and rewrites (distance clamp, auto-rotation, damping). -/
def CameraAnimation.animate (a : CameraAnimation K)
    (update : Vec3 K → Vec3 K → Vec3 K × Vec3 K) (elapsed : K) (s : Sim K) : Sim K × Bool :=
  let progress := progress elapsed
  let easedProgress := easedProgress progress
  let position := lerpVectors a.startPosition a.targetPosition easedProgress
  let target := lerpVectors a.startTarget a.targetLookAt easedProgress
  let updated := update position target
  ({ s with cameraPosition := updated.1, controlsTarget := updated.2 },
   decide (progress < 1))

/-- The setting `controls.minDistance` of line 190. -/
def minDistance : K := 5

/-- The setting `controls.maxDistance` of line 189. -/
def maxDistance : K := 800

/-- The distance clamp of `OrbitControls.update()` (library code, not under
`src/`), for controls without pending rotation, zoom or pan and without
auto-rotation: the offset of the camera from the target keeps its direction and
its length is clamped to `[minDistance, maxDistance]`; the target is kept.
`sqrt` is `Math.sqrt`; the camera is assumed not to sit on the target. -/
def orbitControlsClamp (sqrt : K → K) (position target : Vec3 K) : Vec3 K × Vec3 K :=
  let offset : Vec3 K := ⟨position.x - target.x, position.y - target.y, position.z - target.z⟩
  let radius := sqrt (offset.x * offset.x + offset.y * offset.y + offset.z * offset.z)
  let clamped := max minDistance (min maxDistance radius)
  let scale := clamped / radius
  (⟨target.x + offset.x * scale, target.y + offset.y * scale, target.z + offset.z * scale⟩,
   target)

/-- The call `this.animateCameraTo(targetPosition, targetLookAt)` as seen by the
tour sequencer: the request is recorded; the interpolation it starts is
`CameraAnimation.animate` on `CameraAnimation.capture`. -/
def animateCameraTo (s : Sim K) (targetPosition targetLookAt : Vec3 K) : Sim K :=
  { s with cameraRequests := s.cameraRequests ++ [(targetPosition, targetLookAt)] }

/-! ## Tour sequencer (lines 693-700 and 807-836) -/

/-- The method `performTourStep` (lines 812-836).  The body id read from
`tourPlanets[tourIndex]` is appended to `visited` (`none` for an index out of
range), and the `setTimeout` adds one pending timer.  `showPlanetInfo` only
touches the DOM and is omitted. -/
def performTourStep (s : Sim K) : Sim K :=
  if !s.isTourMode then s
  else
    let planetName := tourPlanets[s.tourIndex]?
    let s1 :=
      match planetName.bind fun n => s.planets.lookup n with
      | some planet =>
        let planetPosition := planet.position
        let targetPosition := planetPosition.add ⟨20, 10, 20⟩
        animateCameraTo s targetPosition planetPosition
      | none => s
    { s1 with tourIndex := (s.tourIndex + 1) % tourPlanets.length,
              visited := s.visited ++ [planetName],
              pendingTimers := s.pendingTimers + 1 }

/-- The method `startTour` (lines 807-810). -/
def startTour (s : Sim K) : Sim K :=
  performTourStep { s with tourIndex := 0 }

/-- The click handler of `tour-mode` (lines 694-700). -/
def tourModeClick (s : Sim K) : Sim K :=
  let s1 := { s with isTourMode := !s.isTourMode }
  if s1.isTourMode then startTour s1 else s1

/-- One pending dwell timer fires: the callback of lines 831-835.  Without a
pending timer nothing happens. -/
def tourTimerFires (s : Sim K) : Sim K :=
  if s.pendingTimers = 0 then s
  else
    let s1 := { s with pendingTimers := s.pendingTimers - 1 }
    if s1.isTourMode then performTourStep s1 else s1

/-! ## Remaining controls and the event model -/

/-- The values of `event.code` that `onKeyDown` distinguishes; `other` stands
for every other key. -/
inductive KeyCode where
  | Space
  | KeyR
  | KeyF
  | ArrowLeft
  | ArrowRight
  | other

/-- The method `onKeyDown` (lines 930-949).  `toggleFullscreen` only touches the
document and is the identity here. -/
def onKeyDown (code : KeyCode) (s : Sim K) : Sim K :=
  match code with
  | .Space => togglePause s
  | .KeyR => resetView s
  | .KeyF => s
  | .ArrowLeft => { s with timeDirection := -1 }
  | .ArrowRight => { s with timeDirection := 1 }
  | .other => s

/-- The speed slider and the speed buttons (lines 656-669):
`this.speed = parseFloat(...)`, with `value` the parsed number. -/
def setSpeed (value : K) (s : Sim K) : Sim K :=
  { s with speed := value }

/-- The user and timer events of the model. -/
inductive Control (K : Type) where
  | timeReversalClick
  | keyDown (code : KeyCode)
  | resetTime
  | togglePause
  | setCenturyView
  | resetView
  | setSpeed (value : K)
  | tourModeClick
  | tourTimerFires

/-- The handler run by an event. -/
def Control.apply (c : Control K) (s : Sim K) : Sim K :=
  match c with
  | .timeReversalClick => SolarSystem.timeReversalClick s
  | .keyDown code => onKeyDown code s
  | .resetTime => SolarSystem.resetTime s
  | .togglePause => SolarSystem.togglePause s
  | .setCenturyView => SolarSystem.setCenturyView s
  | .resetView => SolarSystem.resetView s
  | .setSpeed value => SolarSystem.setSpeed value s
  | .tourModeClick => SolarSystem.tourModeClick s
  | .tourTimerFires => SolarSystem.tourTimerFires s

/-- The state after a sequence of events, first event first. -/
def runControls (s : Sim K) : List (Control K) → Sim K
  | [] => s
  | c :: cs => runControls (c.apply s) cs

/-! ## Frame callback (`animate`, lines 1072-1081) -/

/-- The method `updateEnhancedEffects` (lines 1001-1043), restricted to the
rotation of the asteroid belt and of the Sun; both objects exist after the
constructor (`createAsteroidBelt`, `createEnhancedSun`).  The solar-wind
particles and the atmosphere shells are not part of the state. -/
def updateEnhancedEffects (s : Sim K) : Sim K :=
  { s with asteroidBeltRotationY := s.asteroidBeltRotationY + 0.0001 * s.speed,
           sunRotationY := s.sunRotationY + 0.001 * s.speed }

/-- The method `updateCamera` (lines 1045-1058): when following Earth the
look-at target is copied from Earth's position.  The call `controls.update()`
that ends the method is left out here; it touches the camera position and the
look-at target only. -/
def updateCamera (s : Sim K) : Sim K :=
  if s.isFollowingEarth then
    match s.planets.lookup "earth" with
    | some planet => { s with controlsTarget := planet.position }
    | none => s
  else s

/-- One pass of the frame callback `animate`: `updatePlanetPositions`,
`updateEnhancedEffects`, `updateCamera` (`updateStats` and the render call do
not touch the state). -/
def animate (M : MathLib K) (s : Sim K) (deltaTime : K) : Sim K :=
  updateCamera (updateEnhancedEffects (updatePlanetPositions M s deltaTime))

/-- The constructed object: the state after the constructor's last statement,
the first pass of `animate`, in which `clock.getDelta()` starts the clock and
returns 0.  `random` gives the initial orbital angles. -/
def constructed (M : MathLib K) (random : String → K) : Sim K :=
  animate M (initial random) 0

/-! ## The clock -/

/-- The fields of a Three.js `Clock` used by `getDelta`; times in
milliseconds. -/
structure Clock (K : Type) where
  running : Bool
  oldTime : K

/-- Modelled from the spec: Three.js `Clock.getDelta` (library code, not under
`src/`) returns the time in seconds since its previous call, `newTime` being
the current time; the first call of an auto-start clock starts it and returns
0. -/
def Clock.getDelta (clock : Clock K) (newTime : K) : K × Clock K :=
  if !clock.running then (0, { running := true, oldTime := newTime })
  else ((newTime - clock.oldTime) / 1000, { clock with oldTime := newTime })

/-- The method `updatePlanetPositions` together with its clock: the clock is
read, at time `newTime`, only when the simulation is not paused. -/
def updatePlanetPositionsAt (M : MathLib K) (newTime : K) (st : Sim K × Clock K) :
    Sim K × Clock K :=
  if st.1.isPaused then st
  else
    let r := st.2.getDelta newTime
    (updatePlanetPositions M st.1 r.1, r.2)

/-- Frames at the given times, earliest first. -/
def runFramesAt (M : MathLib K) (st : Sim K × Clock K) : List K → Sim K × Clock K
  | [] => st
  | t :: times => runFramesAt M (updatePlanetPositionsAt M t st) times

/-- The orbital angles of all planets, by name. -/
def orbitalAngles (s : Sim K) : List (String × K) :=
  s.planets.map fun e => (e.1, e.2.angle)

end SolarSystem

namespace SolarSystem

variable {K : Type} [LinearOrderedField K]

/-! ## Shared lemmas on the integrator -/

theorem updatePlanet_angle (M : MathLib K) (timeScale deltaTime : K) (p : Planet K) :
    (updatePlanet M timeScale deltaTime p).angle
      = p.angle + (2 * M.PI) / p.data.orbitalPeriod * timeScale * deltaTime * 1000 := by
  unfold updatePlanet
  dsimp only
  split <;> rfl

theorem updatePlanet_rotationAngle_of_pos (M : MathLib K) (timeScale deltaTime : K)
    (p : Planet K) (h : p.data.rotationPeriod > 0) :
    (updatePlanet M timeScale deltaTime p).rotationAngle
      = p.rotationAngle + (2 * M.PI) / p.data.rotationPeriod * timeScale * deltaTime * 1000 := by
  unfold updatePlanet
  simp only [h, if_true]

theorem updatePlanet_rotationAngle_of_not_pos (M : MathLib K) (timeScale deltaTime : K)
    (p : Planet K) (h : ¬ p.data.rotationPeriod > 0) :
    (updatePlanet M timeScale deltaTime p).rotationAngle
      = p.rotationAngle - (2 * M.PI) / |p.data.rotationPeriod| * timeScale * deltaTime * 1000 := by
  unfold updatePlanet
  simp only [h, if_false]

theorem updatePlanet_data (M : MathLib K) (timeScale deltaTime : K) (p : Planet K) :
    (updatePlanet M timeScale deltaTime p).data = p.data := by
  unfold updatePlanet
  dsimp only
  split <;> rfl

theorem updatePlanet_position (M : MathLib K) (timeScale deltaTime : K) (p : Planet K) :
    (updatePlanet M timeScale deltaTime p).position
      = orbitPosition M p.data (updatePlanet M timeScale deltaTime p).angle := by
  unfold updatePlanet
  dsimp only
  split <;> rfl

theorem updatePlanetPositions_planets (M : MathLib K) (s : Sim K) (deltaTime : K)
    (h : s.isPaused = false) :
    (updatePlanetPositions M s deltaTime).planets
      = s.planets.map fun e =>
          (e.1, updatePlanet M (s.speed * 0.001 * s.timeDirection) deltaTime e.2) := by
  simp [updatePlanetPositions, h]

theorem updatePlanetPositions_speed (M : MathLib K) (s : Sim K) (deltaTime : K) :
    (updatePlanetPositions M s deltaTime).speed = s.speed := by
  unfold updatePlanetPositions
  split <;> rfl

theorem updatePlanetPositions_isPaused (M : MathLib K) (s : Sim K) (deltaTime : K) :
    (updatePlanetPositions M s deltaTime).isPaused = s.isPaused := by
  unfold updatePlanetPositions
  split <;> rfl

/-- With a zero time scale one planet update keeps both angles. -/
theorem updatePlanet_zero_timeScale (M : MathLib K) (deltaTime : K) (p : Planet K) :
    (updatePlanet M 0 deltaTime p).angle = p.angle
      ∧ (updatePlanet M 0 deltaTime p).rotationAngle = p.rotationAngle := by
  refine ⟨by simp [updatePlanet_angle], ?_⟩
  by_cases h : p.data.rotationPeriod > 0
  · simp [updatePlanet_rotationAngle_of_pos M 0 deltaTime p h]
  · simp [updatePlanet_rotationAngle_of_not_pos M 0 deltaTime p h]

theorem angles_updatePlanetPositions_speed_zero (M : MathLib K) (s : Sim K) (deltaTime : K)
    (hspeed : s.speed = 0) :
    angles (updatePlanetPositions M s deltaTime) = angles s := by
  unfold updatePlanetPositions
  split
  · rfl
  · simp only [angles, List.map_map]
    apply List.map_congr_left
    intro e _
    have h := updatePlanet_zero_timeScale M deltaTime e.2
    simp [hspeed, h.1, h.2]

/-! ## Claims on the integrator -/

/-- C1: for every state whose speed is 0 and that is not paused, and every
sequence of frames (any clock delta and any direction in each frame), the
orbital angle and the rotation angle of every planet after the frames equal
their values before the first frame. -/
theorem speed_zero_freezes_angles (M : MathLib K) (frames : List (K × K)) (s : Sim K)
    (hspeed : s.speed = 0) (hrun : s.isPaused = false) :
    angles (runFrames M s frames) = angles s := by
  induction frames generalizing s with
  | nil => rfl
  | cons f frames ih =>
    obtain ⟨dir, dt⟩ := f
    have hs : ({ s with timeDirection := dir } : Sim K).speed = 0 := hspeed
    simp only [runFrames]
    rw [ih _ (by rw [updatePlanetPositions_speed]; exact hs)
          (by rw [updatePlanetPositions_isPaused]; exact hrun)]
    rw [angles_updatePlanetPositions_speed_zero M _ dt hs]
    rfl

theorem speed_zero_freezes_angles_witness :
    ({ initial (fun _ => (0 : ℝ)) with speed := 0 } : Sim ℝ).speed = 0
      ∧ ({ initial (fun _ => (0 : ℝ)) with speed := 0 } : Sim ℝ).isPaused = false
      ∧ angles (runFrames ⟨Real.pi, Real.cos, Real.sin⟩
            { initial (fun _ => (0 : ℝ)) with speed := 0 } [(1, 1), (-1, 2), (1, 0)])
          = angles ({ initial (fun _ => (0 : ℝ)) with speed := 0 } : Sim ℝ) :=
  ⟨rfl, rfl, speed_zero_freezes_angles _ _ _ rfl rfl⟩

/-- C2: for every planet, speed and clock delta, the change of the orbital
angle made by one update with `timeDirection = -1` is the negation of the change
made with `timeDirection = 1`; and in an unpaused simulation one update forward
followed by one update with the direction reversed (same speed, same delta)
gives every planet its original orbital angle back. -/
theorem reverse_direction_round_trip (M : MathLib K) (s : Sim K) (deltaTime : K)
    (hrun : s.isPaused = false) :
    (∀ p : Planet K,
        (updatePlanet M (s.speed * 0.001 * -1) deltaTime p).angle - p.angle
          = -((updatePlanet M (s.speed * 0.001 * 1) deltaTime p).angle - p.angle))
      ∧ (updatePlanetPositions M
            { updatePlanetPositions M { s with timeDirection := 1 } deltaTime with
              timeDirection := -1 } deltaTime).planets.map (fun e => (e.1, e.2.angle))
          = s.planets.map (fun e => (e.1, e.2.angle)) := by
  constructor
  · intro p
    simp only [updatePlanet_angle]
    ring
  · have h1 : ({ s with timeDirection := 1 } : Sim K).isPaused = false := hrun
    rw [updatePlanetPositions_planets M _ deltaTime
          (by show (updatePlanetPositions M _ deltaTime).isPaused = false
              rw [updatePlanetPositions_isPaused]; exact h1)]
    simp only [updatePlanetPositions_planets M _ deltaTime h1, updatePlanetPositions_speed,
      List.map_map]
    apply List.map_congr_left
    intro e _
    simp only [Function.comp, updatePlanet_angle, updatePlanet_data]
    congr 1
    ring

theorem reverse_direction_round_trip_witness :
    (initial (fun _ => (0 : ℝ))).isPaused = false
      ∧ ((∀ p : Planet ℝ,
            (updatePlanet ⟨Real.pi, Real.cos, Real.sin⟩
                ((initial (fun _ => (0 : ℝ))).speed * 0.001 * -1) 3 p).angle - p.angle
              = -((updatePlanet ⟨Real.pi, Real.cos, Real.sin⟩
                ((initial (fun _ => (0 : ℝ))).speed * 0.001 * 1) 3 p).angle - p.angle))
        ∧ (updatePlanetPositions ⟨Real.pi, Real.cos, Real.sin⟩
              { updatePlanetPositions ⟨Real.pi, Real.cos, Real.sin⟩
                  { initial (fun _ => (0 : ℝ)) with timeDirection := 1 } 3 with
                timeDirection := -1 } 3).planets.map (fun e => (e.1, e.2.angle))
            = (initial (fun _ => (0 : ℝ))).planets.map (fun e => (e.1, e.2.angle))) :=
  ⟨rfl, reverse_direction_round_trip _ _ _ rfl⟩

/-- C3: in an unpaused simulation with positive speed, `timeDirection = 1` and
a clock delta `≥ 0` (and `Math.PI > 0`), every planet whose `rotationPeriod` is
negative has, after `updatePlanetPositions`, a rotation angle less than or equal
to the one before, and strictly less when the delta is positive.  Venus
(`rotationPeriod = -5832.5`) is such a planet. -/
theorem retrograde_rotation_decreases (M : MathLib K) (s : Sim K) (deltaTime : K)
    (hPI : 0 < M.PI) (hrun : s.isPaused = false) (hspeed : 0 < s.speed)
    (hdir : s.timeDirection = 1) (hdt : 0 ≤ deltaTime) :
    (venus : PlanetData K).rotationPeriod = -5832.5
      ∧ (venus : PlanetData K).rotationPeriod < 0
      ∧ List.Forall₂
          (fun e e' => e'.1 = e.1 ∧ e'.2.data = e.2.data
            ∧ (e.2.data.rotationPeriod < 0 →
                e'.2.rotationAngle ≤ e.2.rotationAngle
                  ∧ (0 < deltaTime → e'.2.rotationAngle < e.2.rotationAngle)))
          s.planets (updatePlanetPositions M s deltaTime).planets := by
  refine ⟨rfl, by norm_num [venus], ?_⟩
  rw [updatePlanetPositions_planets M s deltaTime hrun, List.forall₂_map_right_iff,
    List.forall₂_same]
  intro e _
  refine ⟨rfl, updatePlanet_data _ _ _ _, ?_⟩
  intro hneg
  rw [updatePlanet_rotationAngle_of_not_pos M _ deltaTime e.2 (not_lt.mpr hneg.le), hdir]
  have habs : 0 < |e.2.data.rotationPeriod| := abs_pos.mpr hneg.ne
  have hrate : 0 < 2 * M.PI / |e.2.data.rotationPeriod| * (s.speed * 0.001 * 1) := by
    positivity
  constructor
  · have : 0 ≤ 2 * M.PI / |e.2.data.rotationPeriod| * (s.speed * 0.001 * 1) * deltaTime * 1000 := by
      positivity
    linarith
  · intro hpos
    have : 0 < 2 * M.PI / |e.2.data.rotationPeriod| * (s.speed * 0.001 * 1) * deltaTime * 1000 := by
      positivity
    linarith

theorem retrograde_rotation_decreases_witness :
    (0 : ℝ) < Real.pi ∧ (initial (fun _ => (0 : ℝ))).isPaused = false
      ∧ 0 < (initial (fun _ => (0 : ℝ))).speed
      ∧ (initial (fun _ => (0 : ℝ))).timeDirection = 1 ∧ (0 : ℝ) ≤ 2
      ∧ (venus : PlanetData ℝ).rotationPeriod = -5832.5
      ∧ (venus : PlanetData ℝ).rotationPeriod < 0
      ∧ List.Forall₂
          (fun e e' => e'.1 = e.1 ∧ e'.2.data = e.2.data
            ∧ (e.2.data.rotationPeriod < 0 →
                e'.2.rotationAngle ≤ e.2.rotationAngle
                  ∧ ((0 : ℝ) < 2 → e'.2.rotationAngle < e.2.rotationAngle)))
          (initial (fun _ => (0 : ℝ))).planets
          (updatePlanetPositions ⟨Real.pi, Real.cos, Real.sin⟩
            (initial (fun _ => (0 : ℝ))) 2).planets :=
  ⟨Real.pi_pos, rfl, by simp [initial], rfl, by norm_num,
    retrograde_rotation_decreases ⟨Real.pi, Real.cos, Real.sin⟩ (initial (fun _ => (0 : ℝ))) 2
      Real.pi_pos rfl (by simp [initial]) rfl (by norm_num)⟩

/-! ## Shared lemmas on the tour sequencer -/

/-- What an executed `performTourStep` does to the tour fields. -/
theorem performTourStep_active (s : Sim K) (h : s.isTourMode = true) :
    (performTourStep s).isTourMode = true
      ∧ (performTourStep s).tourIndex = (s.tourIndex + 1) % 9
      ∧ (performTourStep s).visited = s.visited ++ [tourPlanets[s.tourIndex]?]
      ∧ (performTourStep s).pendingTimers = s.pendingTimers + 1 := by
  unfold performTourStep
  simp only [h, Bool.not_true, Bool.false_eq_true, if_false]
  split <;> simp [animateCameraTo, h, tourPlanets]

/-- A dwell timer that fires while the tour is active executes one step. -/
theorem tourTimerFires_active (s : Sim K) (h : s.isTourMode = true) (hp : 0 < s.pendingTimers) :
    (tourTimerFires s).isTourMode = true
      ∧ (tourTimerFires s).tourIndex = (s.tourIndex + 1) % 9
      ∧ (tourTimerFires s).visited = s.visited ++ [tourPlanets[s.tourIndex]?]
      ∧ (tourTimerFires s).pendingTimers = s.pendingTimers := by
  unfold tourTimerFires
  rw [if_neg (by omega)]
  dsimp only
  rw [if_pos h]
  obtain ⟨h1, h2, h3, h4⟩ :=
    performTourStep_active { s with pendingTimers := s.pendingTimers - 1 } h
  refine ⟨h1, h2, h3, ?_⟩
  rw [h4]
  show s.pendingTimers - 1 + 1 = s.pendingTimers
  omega

/-- A dwell timer that fires while the tour is inactive only disappears. -/
theorem tourTimerFires_inactive (s : Sim K) (h : s.isTourMode = false) :
    tourTimerFires s = { s with pendingTimers := s.pendingTimers - 1 } := by
  unfold tourTimerFires
  by_cases hp : s.pendingTimers = 0
  · rw [if_pos hp]
    cases s
    simp_all
  · rw [if_neg hp]
    simp [h]

/-- The tour fields after `startTour` and `n` firings of the dwell timer. -/
theorem tour_run (s : Sim K) (h : s.isTourMode = true) (n : Nat) :
    (tourTimerFires^[n] (startTour s)).isTourMode = true
      ∧ 0 < (tourTimerFires^[n] (startTour s)).pendingTimers
      ∧ (tourTimerFires^[n] (startTour s)).tourIndex = (n + 1) % 9
      ∧ (tourTimerFires^[n] (startTour s)).visited
          = s.visited ++ (List.range (n + 1)).map fun k => tourPlanets[k % 9]? := by
  induction n with
  | zero =>
    obtain ⟨h1, h2, h3, h4⟩ := performTourStep_active { s with tourIndex := 0 } h
    refine ⟨h1, ?_, h2, ?_⟩
    · show 0 < (performTourStep { s with tourIndex := 0 }).pendingTimers
      omega
    · show (performTourStep { s with tourIndex := 0 }).visited = _
      rw [h3]
      rfl
  | succ n ih =>
    obtain ⟨i1, i2, i3, i4⟩ := ih
    rw [Function.iterate_succ_apply']
    obtain ⟨h1, h2, h3, h4⟩ := tourTimerFires_active _ i1 i2
    refine ⟨h1, by omega, ?_, ?_⟩
    · rw [h2, i3]
      omega
    · rw [h3, i4, i3, List.range_succ (n + 1), List.map_append, List.append_assoc]
      rfl

/-! ## Claims on the tour sequencer -/

/-- C4: `startTour` resets `tourIndex` to 0 before its first step, and while the
tour is active the steps executed by `startTour` and the following `n` firings
of the dwell timer read, in this order, the bodies `tourPlanets[k mod 9]` for
`k = 0, ..., n`; the first ten of these are sun, mercury, venus, earth, mars,
jupiter, saturn, uranus, neptune and sun again. -/
theorem tour_visits_in_order (s : Sim K) (n : Nat) (h : s.isTourMode = true) :
    startTour s = performTourStep { s with tourIndex := 0 }
      ∧ (tourTimerFires^[n] (startTour s)).isTourMode = true
      ∧ (tourTimerFires^[n] (startTour s)).visited
          = s.visited ++ (List.range (n + 1)).map (fun k => tourPlanets[k % 9]?)
      ∧ (tourTimerFires^[n] (startTour s)).tourIndex = (n + 1) % 9
      ∧ (List.range 10).map (fun k => tourPlanets[k % 9]?)
          = [some "sun", some "mercury", some "venus", some "earth", some "mars",
             some "jupiter", some "saturn", some "uranus", some "neptune", some "sun"] := by
  obtain ⟨h1, _, h3, h4⟩ := tour_run s h n
  exact ⟨rfl, h1, h4, h3, by decide⟩

theorem tour_visits_in_order_witness :
    ({ initial (fun _ => (0 : ℚ)) with isTourMode := true } : Sim ℚ).isTourMode = true
      ∧ (tourTimerFires^[9]
            (startTour ({ initial (fun _ => (0 : ℚ)) with isTourMode := true } : Sim ℚ))).visited
          = [some "sun", some "mercury", some "venus", some "earth", some "mars",
             some "jupiter", some "saturn", some "uranus", some "neptune", some "sun"] :=
  ⟨rfl, by
    rw [(tour_visits_in_order _ 9 rfl).2.2.1]
    decide⟩

/-- The guarded case: a dwell timer that fires while the tour is inactive is a
no-op.  In every state with `isTourMode = false` the firing changes nothing but
the count of pending timers, and `performTourStep` returns the state unchanged.
In particular, when a dwell timer is pending and the tour is deactivated, by
the tour toggle (clicked while the tour is active) or by `resetView`, a timer
that fires directly afterwards reads no body id (`visited` is unchanged),
leaves `tourIndex` unchanged, requests no camera interpolation, leaves the tour
inactive, and is consumed without a new timer being scheduled. -/
theorem stale_timer_is_noop (s : Sim K) (hp : 0 < s.pendingTimers) :
    (∀ t : Sim K, t.isTourMode = false →
        performTourStep t = t
          ∧ tourTimerFires t = { t with pendingTimers := t.pendingTimers - 1 })
      ∧ (s.isTourMode = true →
        performTourStep (tourModeClick s) = tourModeClick s
          ∧ (tourTimerFires (tourModeClick s)).isTourMode = false
          ∧ (tourTimerFires (tourModeClick s)).visited = s.visited
          ∧ (tourTimerFires (tourModeClick s)).tourIndex = s.tourIndex
          ∧ (tourTimerFires (tourModeClick s)).cameraRequests = s.cameraRequests
          ∧ (tourTimerFires (tourModeClick s)).pendingTimers + 1 = s.pendingTimers)
      ∧ performTourStep (resetView s) = resetView s
      ∧ (tourTimerFires (resetView s)).isTourMode = false
      ∧ (tourTimerFires (resetView s)).visited = s.visited
      ∧ (tourTimerFires (resetView s)).tourIndex = s.tourIndex
      ∧ (tourTimerFires (resetView s)).cameraRequests = s.cameraRequests
      ∧ (tourTimerFires (resetView s)).pendingTimers + 1 = s.pendingTimers := by
  refine ⟨fun t ht => ⟨by simp [performTourStep, ht], tourTimerFires_inactive t ht⟩, ?_, ?_⟩
  · intro h
    have hc : tourModeClick s = { s with isTourMode := false } := by
      simp [tourModeClick, h]
    have hoff : (tourModeClick s).isTourMode = false := by rw [hc]
    rw [tourTimerFires_inactive _ hoff, hc]
    refine ⟨by simp [performTourStep], rfl, rfl, rfl, rfl, ?_⟩
    show s.pendingTimers - 1 + 1 = s.pendingTimers
    omega
  · have hoff : (resetView s).isTourMode = false := rfl
    rw [tourTimerFires_inactive _ hoff]
    refine ⟨by simp [performTourStep, resetView], rfl, rfl, rfl, rfl, ?_⟩
    show s.pendingTimers - 1 + 1 = s.pendingTimers
    omega

theorem stale_timer_is_noop_witness :
    0 < (startTour ({ initial (fun _ => (0 : ℚ)) with isTourMode := true } : Sim ℚ)).pendingTimers
      ∧ (tourTimerFires (tourModeClick
            (startTour ({ initial (fun _ => (0 : ℚ)) with isTourMode := true } : Sim ℚ)))).tourIndex
          = 1
      ∧ (tourTimerFires (resetView
            (startTour ({ initial (fun _ => (0 : ℚ)) with isTourMode := true } : Sim ℚ)))).visited
          = [some "sun"] :=
  ⟨by decide,
   ((stale_timer_is_noop
      (startTour ({ initial (fun _ => (0 : ℚ)) with isTourMode := true } : Sim ℚ))
      (by decide)).2.1 rfl).2.2.2.1,
   (stale_timer_is_noop
      (startTour ({ initial (fun _ => (0 : ℚ)) with isTourMode := true } : Sim ℚ))
      (by decide)).2.2.2.2.1⟩

/-- A timer that fires right after the tour was switched on from an inactive
state executes a step: the switch-on runs the `sun` step and the firing runs the
`mercury` step, and one more timer is pending than before the switch-on. -/
theorem tourTimerFires_after_activation (u : Sim K) (hu : u.isTourMode = false) :
    (tourTimerFires (tourModeClick u)).isTourMode = true
      ∧ (tourTimerFires (tourModeClick u)).visited = u.visited ++ [some "sun", some "mercury"]
      ∧ (tourTimerFires (tourModeClick u)).tourIndex = 2
      ∧ (tourTimerFires (tourModeClick u)).pendingTimers = u.pendingTimers + 1
      ∧ (tourModeClick u).pendingTimers = u.pendingTimers + 1 := by
  have hc : tourModeClick u = startTour { u with isTourMode := true } := by
    simp [tourModeClick, hu]
  obtain ⟨a1, a2, a3, a4⟩ :=
    performTourStep_active { u with isTourMode := true, tourIndex := 0 } rfl
  have hstart : startTour { u with isTourMode := true }
      = performTourStep { u with isTourMode := true, tourIndex := 0 } := rfl
  obtain ⟨b1, b2, b3, b4⟩ :=
    tourTimerFires_active (performTourStep { u with isTourMode := true, tourIndex := 0 }) a1
      (by rw [a4]; exact Nat.succ_pos _)
  rw [hc, hstart]
  refine ⟨b1, ?_, ?_, ?_, a4⟩
  · rw [b3, a3, a2, List.append_assoc]
    rfl
  · rw [b2, a2]
    rfl
  · rw [b4, a4]

/-- C5, evaluated on the code: let a tour step have scheduled its dwell timer
(the tour is active and a timer is pending).  If the tour is deactivated, by the
tour toggle or by `resetView`, and switched on again before that timer fires,
the timer is not a no-op when it fires: after the `sun` step of the new
activation it executes `performTourStep`, which reads `mercury`, moves
`tourIndex` to 2 and schedules a further timer, so that one more timer is
pending than before the deactivation. -/
theorem stale_timer_runs_after_reactivation (s : Sim K) (h : s.isTourMode = true)
    (hp : 0 < s.pendingTimers) :
    (tourModeClick s).isTourMode = false
      ∧ (tourModeClick s).pendingTimers = s.pendingTimers
      ∧ 2 ≤ (tourModeClick (tourModeClick s)).pendingTimers
      ∧ (tourTimerFires (tourModeClick (tourModeClick s))).isTourMode = true
      ∧ (tourTimerFires (tourModeClick (tourModeClick s))).visited
          = s.visited ++ [some "sun", some "mercury"]
      ∧ (tourTimerFires (tourModeClick (tourModeClick s))).tourIndex = 2
      ∧ (tourTimerFires (tourModeClick (tourModeClick s))).pendingTimers = s.pendingTimers + 1
      ∧ (resetView s).isTourMode = false
      ∧ (tourTimerFires (tourModeClick (resetView s))).visited
          = s.visited ++ [some "sun", some "mercury"]
      ∧ (tourTimerFires (tourModeClick (resetView s))).tourIndex = 2
      ∧ (tourTimerFires (tourModeClick (resetView s))).pendingTimers = s.pendingTimers + 1 := by
  have hc : tourModeClick s = { s with isTourMode := false } := by
    simp [tourModeClick, h]
  have hoff : (tourModeClick s).isTourMode = false := by rw [hc]
  obtain ⟨c1, c2, c3, c4, c5⟩ := tourTimerFires_after_activation (tourModeClick s) hoff
  obtain ⟨_, r2, r3, r4, _⟩ := tourTimerFires_after_activation (resetView s) rfl
  have hv : (tourModeClick s).visited = s.visited := by rw [hc]
  have hn : (tourModeClick s).pendingTimers = s.pendingTimers := by rw [hc]
  refine ⟨hoff, hn, ?_, c1, ?_, c3, ?_, rfl, r2, r3, r4⟩
  · rw [c5, hn]
    omega
  · rw [c2, hv]
  · rw [c4, hn]

theorem stale_timer_runs_after_reactivation_witness :
    (startTour ({ initial (fun _ => (0 : ℚ)) with isTourMode := true } : Sim ℚ)).isTourMode = true
      ∧ 0 < (startTour
            ({ initial (fun _ => (0 : ℚ)) with isTourMode := true } : Sim ℚ)).pendingTimers
      ∧ (tourTimerFires (tourModeClick (tourModeClick
            (startTour ({ initial (fun _ => (0 : ℚ)) with isTourMode := true } : Sim ℚ))))).visited
          = (startTour ({ initial (fun _ => (0 : ℚ)) with isTourMode := true } : Sim ℚ)).visited
              ++ [some "sun", some "mercury"] :=
  ⟨by decide, by decide,
   (stale_timer_runs_after_reactivation
      (startTour ({ initial (fun _ => (0 : ℚ)) with isTourMode := true } : Sim ℚ))
      (by decide) (by decide)).2.2.2.2.1⟩

/-! ## Claims on the camera interpolator -/

theorem progress_zero : progress (0 : K) = 0 := by
  simp [progress]

theorem progress_of_duration_le (elapsed : K) (h : 2000 ≤ elapsed) : progress elapsed = 1 := by
  unfold progress duration
  exact min_eq_right ((one_le_div (by norm_num)).mpr h)

theorem lerpVectors_zero (v1 v2 : Vec3 K) : lerpVectors v1 v2 0 = v1 := by
  cases v1
  simp [lerpVectors]

theorem lerpVectors_one (v1 v2 : Vec3 K) : lerpVectors v1 v2 1 = v2 := by
  cases v2
  simp [lerpVectors]

/-- The distance clamp moves a camera that is closer than `minDistance` to its
target: from `(1, 0, 0)` with target `(0, 0, 0)` it goes to `(5, 0, 0)`. -/
theorem orbitControlsClamp_near :
    orbitControlsClamp Real.sqrt (⟨1, 0, 0⟩ : Vec3 ℝ) ⟨0, 0, 0⟩ = (⟨5, 0, 0⟩, ⟨0, 0, 0⟩) := by
  have h5 : max (5 : ℝ) (min 800 1) = 5 := by
    rw [min_eq_right (by norm_num), max_eq_left (by norm_num)]
  simp [orbitControlsClamp, minDistance, maxDistance, h5]

/-- The distance clamp leaves the camera targets of the tour alone: a position
at offset `(20, 10, 20)` from the target is at distance 30. -/
theorem orbitControlsClamp_tour_offset (p : Vec3 ℝ) :
    orbitControlsClamp Real.sqrt (p.add ⟨20, 10, 20⟩) p = (p.add ⟨20, 10, 20⟩, p) := by
  have hs : Real.sqrt (20 * 20 + 10 * 10 + 20 * 20) = 30 := by
    rw [show (20 * 20 + 10 * 10 + 20 * 20 : ℝ) = 30 ^ 2 by norm_num]
    exact Real.sqrt_sq (by norm_num)
  have hm : max (5 : ℝ) (min 800 30) = 30 := by
    rw [min_eq_right (by norm_num), max_eq_right (by norm_num)]
  simp [orbitControlsClamp, minDistance, maxDistance, Vec3.add, hs, hm]

/-- C6, as stated, fails: with the distance clamp of `controls.update()`, an
interpolation started with the camera at `(0, 80, 150)` toward the target
position `(1, 0, 0)` with look-at target `(0, 0, 0)` leaves the camera, after
the step at elapsed time 2000 ms, at `(5, 0, 0)` and not at the target
position. -/
theorem camera_step_clamped :
    ((CameraAnimation.capture (initial (fun _ => (0 : ℝ))) ⟨1, 0, 0⟩ ⟨0, 0, 0⟩).animate
        (orbitControlsClamp Real.sqrt) 2000 (initial (fun _ => (0 : ℝ)))).1.cameraPosition
        = ⟨5, 0, 0⟩
      ∧ ((CameraAnimation.capture (initial (fun _ => (0 : ℝ))) ⟨1, 0, 0⟩ ⟨0, 0, 0⟩).animate
          (orbitControlsClamp Real.sqrt) 2000 (initial (fun _ => (0 : ℝ)))).1.cameraPosition
        ≠ ⟨1, 0, 0⟩ := by
  have e1 : easedProgress (1 : ℝ) = 1 := by simp [easedProgress]
  have hpos : ((CameraAnimation.capture (initial (fun _ => (0 : ℝ))) ⟨1, 0, 0⟩ ⟨0, 0, 0⟩).animate
      (orbitControlsClamp Real.sqrt) 2000 (initial (fun _ => (0 : ℝ)))).1.cameraPosition
      = ⟨5, 0, 0⟩ := by
    simp only [CameraAnimation.animate, CameraAnimation.capture,
      progress_of_duration_le (2000 : ℝ) le_rfl, e1, lerpVectors_one, orbitControlsClamp_near]
  refine ⟨hpos, ?_⟩
  rw [hpos]
  intro h
  have hx := congrArg Vec3.x h
  norm_num at hx

/-- C6, amended: for an interpolation started by `animateCameraTo(targetPosition,
targetLookAt)` in state `s`, the step at elapsed time 0 hands to
`controls.update()` the camera position and look-at target of `s`, and a step
at any elapsed time of at least 2000 ms hands it `targetPosition` and
`targetLookAt`; the camera position and look-at target after the step are what
`controls.update()` returns, hence the captured position, respectively
`targetPosition` and `targetLookAt`, whenever the update leaves them unchanged;
the step at 2000 ms or later does not schedule a further step (`now` is the
state in which the step runs). -/
theorem camera_animation_endpoints (update : Vec3 K → Vec3 K → Vec3 K × Vec3 K)
    (s now : Sim K) (targetPosition targetLookAt : Vec3 K) (elapsed : K) (h : 2000 ≤ elapsed) :
    (((CameraAnimation.capture s targetPosition targetLookAt).animate update 0
          now).1.cameraPosition = (update s.cameraPosition s.controlsTarget).1)
      ∧ (((CameraAnimation.capture s targetPosition targetLookAt).animate update 0
          now).1.controlsTarget = (update s.cameraPosition s.controlsTarget).2)
      ∧ (((CameraAnimation.capture s targetPosition targetLookAt).animate update elapsed
          now).1.cameraPosition = (update targetPosition targetLookAt).1)
      ∧ (((CameraAnimation.capture s targetPosition targetLookAt).animate update elapsed
          now).1.controlsTarget = (update targetPosition targetLookAt).2)
      ∧ ((CameraAnimation.capture s targetPosition targetLookAt).animate update elapsed now).2
          = false
      ∧ (update s.cameraPosition s.controlsTarget = (s.cameraPosition, s.controlsTarget) →
          ((CameraAnimation.capture s targetPosition targetLookAt).animate update 0
            now).1.cameraPosition = s.cameraPosition)
      ∧ (update targetPosition targetLookAt = (targetPosition, targetLookAt) →
          ((CameraAnimation.capture s targetPosition targetLookAt).animate update elapsed
              now).1.cameraPosition = targetPosition
            ∧ ((CameraAnimation.capture s targetPosition targetLookAt).animate update elapsed
              now).1.controlsTarget = targetLookAt) := by
  have e0 : easedProgress (0 : K) = 0 := by simp [easedProgress]
  have e1 : easedProgress (1 : K) = 1 := by simp [easedProgress]
  simp only [CameraAnimation.animate, CameraAnimation.capture, progress_zero,
    progress_of_duration_le elapsed h, e0, e1, lerpVectors_zero, lerpVectors_one]
  refine ⟨trivial, trivial, trivial, trivial, by simp, ?_, ?_⟩
  · intro hu
    rw [hu]
  · intro hu
    rw [hu]
    exact ⟨rfl, rfl⟩

theorem camera_animation_endpoints_witness :
    (2000 : ℝ) ≤ 2500
      ∧ ((CameraAnimation.capture (initial (fun _ => (0 : ℝ))) ⟨1, 0, 0⟩ ⟨0, 0, 0⟩).animate
            (orbitControlsClamp Real.sqrt) 2500 (initial (fun _ => (0 : ℝ)))).1.cameraPosition
          = (orbitControlsClamp Real.sqrt (⟨1, 0, 0⟩ : Vec3 ℝ) ⟨0, 0, 0⟩).1 :=
  ⟨by norm_num,
   (camera_animation_endpoints (orbitControlsClamp Real.sqrt) (initial (fun _ => (0 : ℝ)))
      (initial (fun _ => (0 : ℝ))) ⟨1, 0, 0⟩ ⟨0, 0, 0⟩ 2500 (by norm_num)).2.2.1⟩

/-- C7: at 1000 ms of the 2000 ms duration the linear progress of
`animateCameraTo` is 0.5 and its eased progress is 0.875. -/
theorem easedProgress_half :
    progress (1000 : K) = 0.5 ∧ easedProgress (progress (1000 : K)) = 0.875 := by
  have hp : progress (1000 : K) = 0.5 := by
    unfold progress duration
    rw [min_eq_left (by norm_num)]
    norm_num
  refine ⟨hp, ?_⟩
  rw [hp]
  unfold easedProgress
  norm_num

/-! ## Claims on the ellipse formula (real cosine and sine) -/

/-- Earth's radius at true anomaly 0 with the real cosine: `60 (1 - e²) / (1 + e)`,
which is `60 (1 - e) = 58.998`. -/
theorem orbitRadius_earth_zero :
    orbitRadius ⟨Real.pi, Real.cos, Real.sin⟩ (earth : PlanetData ℝ) 0 = 58.998 := by
  simp only [orbitRadius, earth, eccentricity, Real.cos_zero]
  norm_num

/-- Earth's position at true anomaly 0 with the real cosine and sine. -/
theorem orbitPosition_earth_zero :
    orbitPosition ⟨Real.pi, Real.cos, Real.sin⟩ (earth : PlanetData ℝ) 0 = ⟨58.998, 0, 0⟩ := by
  have hr := orbitRadius_earth_zero
  simp only [orbitPosition, hr]
  simp [Real.cos_zero, Real.sin_zero]

/-- C8, as stated, fails: Earth's radius at orbital angle 0, multiplied by 100
and rounded to the nearest integer, is not 5902 (the radius does not round to
59.02). -/
theorem earth_radius_not_59_02 :
    round (orbitRadius ⟨Real.pi, Real.cos, Real.sin⟩ (earth : PlanetData ℝ) 0 * 100) ≠ 5902 := by
  rw [orbitRadius_earth_zero, round_eq]
  have : ⌊(58.998 : ℝ) * 100 + 1 / 2⌋ = 5900 := by
    rw [Int.floor_eq_iff]
    constructor <;> norm_num
  rw [this]
  decide

/-- C8, amended: for Earth's constants (distance 60, eccentricity 0.0167) at
orbital angle 0 the radius of the ellipse formula equals `60 (1 - 0.0167) =
58.998`, which is 59.00 when rounded to two decimal places. -/
theorem earth_radius_at_zero :
    (earth : PlanetData ℝ).distance = 60 ∧ (eccentricity : ℝ) = 0.0167
      ∧ orbitRadius ⟨Real.pi, Real.cos, Real.sin⟩ (earth : PlanetData ℝ) 0
          = 60 * (1 - 0.0167 ^ 2) / (1 + 0.0167 * Real.cos 0)
      ∧ orbitRadius ⟨Real.pi, Real.cos, Real.sin⟩ (earth : PlanetData ℝ) 0 = 58.998
      ∧ round (orbitRadius ⟨Real.pi, Real.cos, Real.sin⟩ (earth : PlanetData ℝ) 0 * 100)
          = 5900 := by
  refine ⟨rfl, rfl, ?_, orbitRadius_earth_zero, ?_⟩
  · simp only [orbitRadius, earth, eccentricity]
    ring
  · rw [orbitRadius_earth_zero, round_eq, Int.floor_eq_iff]
    constructor <;> norm_num

/-- C9, as stated, fails: for Earth with orbital angle 0 (and clock delta 0, so
that the angle stays 0) the z coordinate set by the update is not the ellipse
radius `r`. -/
theorem earth_position_z_not_radius :
    (updatePlanet ⟨Real.pi, Real.cos, Real.sin⟩ 0.001 0
        { data := (earth : PlanetData ℝ), angle := 0, rotationAngle := 0,
          position := ⟨0, 0, 0⟩, rotationY := 0 }).position.z
      ≠ orbitRadius ⟨Real.pi, Real.cos, Real.sin⟩ (earth : PlanetData ℝ) 0 := by
  rw [updatePlanet_position, updatePlanet_angle, orbitRadius_earth_zero]
  simp only [mul_zero, zero_mul, add_zero, orbitPosition_earth_zero]
  norm_num

/-- C9, amended: for Earth (distance 60, orbitalInclination 0) at orbital angle
0 the position set by the update is `(r, 0, 0)` with `r = 58.998` the ellipse
radius at angle 0: x is `r`, y is 0 and z is `r · sin 0 · cos (0°) = 0`. -/
theorem earth_position_at_zero (timeScale rotationAngle rotationY : ℝ) (position : Vec3 ℝ) :
    (earth : PlanetData ℝ).distance = 60 ∧ (earth : PlanetData ℝ).orbitalInclination = 0
      ∧ (updatePlanet ⟨Real.pi, Real.cos, Real.sin⟩ timeScale 0
          { data := (earth : PlanetData ℝ), angle := 0, rotationAngle := rotationAngle,
            position := position, rotationY := rotationY }).angle = 0
      ∧ (updatePlanet ⟨Real.pi, Real.cos, Real.sin⟩ timeScale 0
          { data := (earth : PlanetData ℝ), angle := 0, rotationAngle := rotationAngle,
            position := position, rotationY := rotationY }).position
        = ⟨orbitRadius ⟨Real.pi, Real.cos, Real.sin⟩ (earth : PlanetData ℝ) 0, 0, 0⟩
      ∧ orbitRadius ⟨Real.pi, Real.cos, Real.sin⟩ (earth : PlanetData ℝ) 0 = 58.998 := by
  refine ⟨rfl, rfl, ?_, ?_, orbitRadius_earth_zero⟩
  · rw [updatePlanet_angle]
    simp
  · rw [updatePlanet_position, updatePlanet_angle, orbitRadius_earth_zero]
    simp only [mul_zero, zero_mul, add_zero, orbitPosition_earth_zero]

/-! ## Zero and negative clock deltas -/

/-- C10, as stated, fails: in the state built by the constructor (speed 1, forward, not
paused, all angles 0) an update with clock delta `-1` changes the angles. -/
theorem negative_delta_changes_angles :
    angles (updatePlanetPositions ⟨Real.pi, Real.cos, Real.sin⟩ (initial (fun _ => (0 : ℝ))) (-1))
      ≠ angles (initial (fun _ => (0 : ℝ))) := by
  intro h
  have h1 := congrArg (fun l => (l.map fun a => a.2.1).head?) h
  simp only [angles, updatePlanetPositions, initial, createEnhancedPlanets, planetData,
    List.map_cons, List.head?_cons] at h1
  simp [updatePlanet_angle, mercury, Real.pi_ne_zero] at h1
  norm_num at h1

/-- C10, amended: an update whose clock delta is zero leaves the orbital angle
and the rotation angle of every planet unchanged, for every speed and
direction; a negative delta is not clamped: for every planet, time scale and
delta the changes of both angles for the delta `-d` are the negations of the
changes for `d`. -/
theorem zero_delta_no_advance (M : MathLib K) (s : Sim K) :
    angles (updatePlanetPositions M s 0) = angles s
      ∧ ∀ (timeScale d : K) (p : Planet K),
          (updatePlanet M timeScale (-d) p).angle - p.angle
              = -((updatePlanet M timeScale d p).angle - p.angle)
            ∧ (updatePlanet M timeScale (-d) p).rotationAngle - p.rotationAngle
              = -((updatePlanet M timeScale d p).rotationAngle - p.rotationAngle) := by
  constructor
  · unfold updatePlanetPositions
    split
    · rfl
    · simp only [angles, List.map_map]
      apply List.map_congr_left
      intro e _
      by_cases hr : e.2.data.rotationPeriod > 0
      · simp [updatePlanet_angle, updatePlanet_rotationAngle_of_pos _ _ _ _ hr]
      · simp [updatePlanet_angle, updatePlanet_rotationAngle_of_not_pos _ _ _ _ hr]
  · intro timeScale d p
    constructor
    · simp only [updatePlanet_angle]
      ring
    · by_cases hr : p.data.rotationPeriod > 0
      · simp only [updatePlanet_rotationAngle_of_pos _ _ _ _ hr]
        ring
      · simp only [updatePlanet_rotationAngle_of_not_pos _ _ _ _ hr]
        ring

/-! ## The orbital increment and pausing -/

/-- C11: in an unpaused frame with clock delta `d`, `updatePlanetPositions`
changes the orbital angle of every planet by
`(2π / orbitalPeriod) · speed · timeDirection · d · k`, where `k` is the product
`0.001 · 1000` of the two factors of the code, and `k = 1`. -/
theorem orbital_increment_formula (M : MathLib K) (s : Sim K) (d : K)
    (hrun : s.isPaused = false) :
    ((0.001 : K) * 1000 = 1)
      ∧ List.Forall₂
          (fun e e' => e'.1 = e.1 ∧ e'.2.data = e.2.data
            ∧ e'.2.angle - e.2.angle
                = (2 * M.PI / e.2.data.orbitalPeriod) * s.speed * s.timeDirection * d
                    * (0.001 * 1000))
          s.planets (updatePlanetPositions M s d).planets := by
  refine ⟨by norm_num, ?_⟩
  rw [updatePlanetPositions_planets M s d hrun, List.forall₂_map_right_iff, List.forall₂_same]
  intro e _
  refine ⟨rfl, updatePlanet_data _ _ _ _, ?_⟩
  rw [updatePlanet_angle]
  ring

theorem orbital_increment_formula_witness :
    (initial (fun _ => (0 : ℝ))).isPaused = false
      ∧ List.Forall₂
          (fun e e' => e'.1 = e.1 ∧ e'.2.data = e.2.data
            ∧ e'.2.angle - e.2.angle
                = (2 * Real.pi / e.2.data.orbitalPeriod) * (initial (fun _ => (0 : ℝ))).speed
                    * (initial (fun _ => (0 : ℝ))).timeDirection * 3 * (0.001 * 1000))
          (initial (fun _ => (0 : ℝ))).planets
          (updatePlanetPositions ⟨Real.pi, Real.cos, Real.sin⟩
            (initial (fun _ => (0 : ℝ))) 3).planets :=
  ⟨rfl,
   (orbital_increment_formula ⟨Real.pi, Real.cos, Real.sin⟩ (initial (fun _ => (0 : ℝ))) 3
      rfl).2⟩

/-- C12: while `isPaused` is true `updatePlanetPositions` returns the state
unchanged, whatever the speed, the direction and the clock delta; so every
planet keeps its orbital angle, rotation angle, position and `rotation.y`, and
the clock is not read. -/
theorem paused_update_is_identity (M : MathLib K) (s : Sim K) (deltaTime : K)
    (hpaused : s.isPaused = true) :
    updatePlanetPositions M s deltaTime = s
      ∧ (updatePlanetPositions M s deltaTime).planets = s.planets
      ∧ ∀ (clock : Clock K) (newTime : K),
          updatePlanetPositionsAt M newTime (s, clock) = (s, clock) := by
  have h : updatePlanetPositions M s deltaTime = s := by
    simp [updatePlanetPositions, hpaused]
  refine ⟨h, by rw [h], ?_⟩
  intro clock newTime
  simp [updatePlanetPositionsAt, hpaused]

theorem paused_update_is_identity_witness :
    (togglePause (initial (fun _ => (0 : ℝ)))).isPaused = true
      ∧ updatePlanetPositions ⟨Real.pi, Real.cos, Real.sin⟩
          (togglePause (initial (fun _ => (0 : ℝ)))) 5
        = togglePause (initial (fun _ => (0 : ℝ))) :=
  ⟨rfl,
   (paused_update_is_identity ⟨Real.pi, Real.cos, Real.sin⟩
      (togglePause (initial (fun _ => (0 : ℝ)))) 5 rfl).1⟩

/-- Every pass of the frame callback adds `0.001 · speed` to the rotation of the
Sun and `0.0001 · speed` to that of the asteroid belt, and keeps the speed and
the pause flag. -/
theorem animate_rotations (M : MathLib K) (s : Sim K) (deltaTime : K) :
    (animate M s deltaTime).sunRotationY = s.sunRotationY + 0.001 * s.speed
      ∧ (animate M s deltaTime).asteroidBeltRotationY
          = s.asteroidBeltRotationY + 0.0001 * s.speed
      ∧ (animate M s deltaTime).speed = s.speed
      ∧ (animate M s deltaTime).isPaused = s.isPaused := by
  have h1 : (updatePlanetPositions M s deltaTime).sunRotationY = s.sunRotationY := by
    unfold updatePlanetPositions
    split <;> rfl
  have h2 : (updatePlanetPositions M s deltaTime).asteroidBeltRotationY
      = s.asteroidBeltRotationY := by
    unfold updatePlanetPositions
    split <;> rfl
  have h3 := updatePlanetPositions_speed M s deltaTime
  have h4 := updatePlanetPositions_isPaused M s deltaTime
  unfold animate updateCamera
  split
  · split <;> exact ⟨by simp [updateEnhancedEffects, h1, h3], by simp [updateEnhancedEffects, h2, h3],
      by simp [updateEnhancedEffects, h3], by simp [updateEnhancedEffects, h4]⟩
  · exact ⟨by simp [updateEnhancedEffects, h1, h3], by simp [updateEnhancedEffects, h2, h3],
      by simp [updateEnhancedEffects, h3], by simp [updateEnhancedEffects, h4]⟩

/-- The planets of the constructed object: the first frame has clock delta 0. -/
theorem constructed_planets (M : MathLib K) (random : String → K) :
    (constructed M random).planets
      = (createEnhancedPlanets random).map
          (fun e => (e.1, updatePlanet M (1 * 0.001 * 1) 0 e.2)) := by
  have h : (initial random).isFollowingEarth = false := rfl
  simp only [constructed, animate, updateCamera, updateEnhancedEffects]
  rw [if_neg (by
    have : (updatePlanetPositions M (initial random) 0).isFollowingEarth = false := by
      unfold updatePlanetPositions
      split <;> rfl
    simp [this])]
  exact updatePlanetPositions_planets M (initial random) 0 rfl

/-- The tour has not started in the constructed object. -/
theorem constructed_tour_fields (M : MathLib K) (random : String → K) :
    (constructed M random).isTourMode = false
      ∧ (constructed M random).visited = []
      ∧ (constructed M random).cameraRequests = []
      ∧ (constructed M random).pendingTimers = 0 := by
  simp only [constructed, animate, updateCamera, updateEnhancedEffects, updatePlanetPositions]
  have h : (initial random).isPaused = false := rfl
  have h2 : (initial random).isFollowingEarth = false := rfl
  simp [h, h2]
  exact ⟨rfl, rfl, rfl, rfl⟩

/-- Switching the tour on in a state without a planet `sun` runs the `sun` step
without a camera request. -/
theorem tourModeClick_sun_step (u : Sim K) (hu : u.isTourMode = false)
    (hl : List.lookup "sun" u.planets = none) :
    (tourModeClick u).visited = u.visited ++ [some "sun"]
      ∧ (tourModeClick u).cameraRequests = u.cameraRequests
      ∧ tourModeClick u
          = { u with isTourMode := true, tourIndex := 1, visited := u.visited ++ [some "sun"],
                     pendingTimers := u.pendingTimers + 1 } := by
  have h : tourModeClick u
      = { u with isTourMode := true, tourIndex := 1, visited := u.visited ++ [some "sun"],
                 pendingTimers := u.pendingTimers + 1 } := by
    simp [tourModeClick, hu, startTour, performTourStep, tourPlanets, hl]
  refine ⟨by rw [h], by rw [h], h⟩

/-- The constructed object has no planet `sun`; its planet `mercury` is the
mesh after the first frame. -/
theorem constructed_lookup (M : MathLib K) (random : String → K) :
    List.lookup "sun" (constructed M random).planets = none
      ∧ List.lookup "mercury" (constructed M random).planets
          = some (updatePlanet M (1 * 0.001 * 1) 0
              { data := mercury, angle := random "mercury", rotationAngle := 0,
                position := ⟨0, 0, 0⟩, rotationY := 0 }) := by
  rw [constructed_planets]
  constructor <;> simp [createEnhancedPlanets, planetData, List.lookup]

/-- A paused pass of the frame callback still adds `0.001 · speed` to the
rotation of the Sun and `0.0001 · speed` to that of the asteroid belt. -/
theorem animate_paused_rotations (M : MathLib K) (s : Sim K) (deltaTime : K)
    (hp : s.isPaused = true) :
    (animate M s deltaTime).sunRotationY = s.sunRotationY + 0.001 * s.speed
      ∧ (animate M s deltaTime).asteroidBeltRotationY
          = s.asteroidBeltRotationY + 0.0001 * s.speed := by
  have h : updatePlanetPositions M s deltaTime = s := by
    simp [updatePlanetPositions, hp]
  unfold animate updateCamera
  rw [h]
  split
  · split <;> exact ⟨rfl, rfl⟩
  · exact ⟨rfl, rfl⟩

/-- C13, evaluated on the code: `updateEnhancedEffects` has no pause test.  In
the state before the first frame, paused by `togglePause` (speed 1, Sun and belt
at rotation 0), one pass of the frame callback `animate` turns the Sun to 0.001
and the asteroid belt to 0.0001.  In the constructed object (after the first
frame: Sun at 0.001, belt at 0.0001), paused by `togglePause`, one pass of
`animate` turns the Sun to 0.002 and the belt to 0.0002, for all initial
orbital angles. -/
theorem paused_frame_rotates_sun_and_belt :
    (togglePause (initial (fun _ => (0 : ℝ)))).isPaused = true
      ∧ (togglePause (initial (fun _ => (0 : ℝ)))).sunRotationY = 0
      ∧ (togglePause (initial (fun _ => (0 : ℝ)))).asteroidBeltRotationY = 0
      ∧ (animate ⟨Real.pi, Real.cos, Real.sin⟩
            (togglePause (initial (fun _ => (0 : ℝ)))) 0).sunRotationY = 0.001
      ∧ (animate ⟨Real.pi, Real.cos, Real.sin⟩
            (togglePause (initial (fun _ => (0 : ℝ)))) 0).asteroidBeltRotationY = 0.0001
      ∧ ∀ random : String → ℝ,
        (togglePause (constructed ⟨Real.pi, Real.cos, Real.sin⟩ random)).isPaused = true
        ∧ (togglePause (constructed ⟨Real.pi, Real.cos, Real.sin⟩ random)).sunRotationY = 0.001
        ∧ (togglePause (constructed ⟨Real.pi, Real.cos, Real.sin⟩ random)).asteroidBeltRotationY
            = 0.0001
        ∧ (animate ⟨Real.pi, Real.cos, Real.sin⟩
            (togglePause (constructed ⟨Real.pi, Real.cos, Real.sin⟩ random)) 0).sunRotationY
            = 0.002
        ∧ (animate ⟨Real.pi, Real.cos, Real.sin⟩
            (togglePause (constructed ⟨Real.pi, Real.cos, Real.sin⟩ random))
            0).asteroidBeltRotationY = 0.0002 := by
  refine ⟨rfl, rfl, rfl, ?_, ?_, ?_⟩
  · rw [(animate_paused_rotations _ _ _ rfl).1]
    simp [togglePause, initial]
  · rw [(animate_paused_rotations _ _ _ rfl).2]
    simp [togglePause, initial]
  · intro random
    obtain ⟨c1, c2, c3, c4⟩ :=
      animate_rotations ⟨Real.pi, Real.cos, Real.sin⟩ (initial random) 0
    have hs : (constructed ⟨Real.pi, Real.cos, Real.sin⟩ random).sunRotationY = 0.001 := by
      show (animate _ (initial random) 0).sunRotationY = 0.001
      rw [c1]
      simp [initial]
    have hb : (constructed ⟨Real.pi, Real.cos, Real.sin⟩ random).asteroidBeltRotationY
        = 0.0001 := by
      show (animate _ (initial random) 0).asteroidBeltRotationY = 0.0001
      rw [c2]
      simp [initial]
    have hsp : (constructed ⟨Real.pi, Real.cos, Real.sin⟩ random).speed = 1 := c3
    have hpa : (constructed ⟨Real.pi, Real.cos, Real.sin⟩ random).isPaused = false := c4
    have hp : (togglePause (constructed ⟨Real.pi, Real.cos, Real.sin⟩ random)).isPaused = true := by
      simp [togglePause, hpa]
    obtain ⟨p1, p2⟩ := animate_paused_rotations ⟨Real.pi, Real.cos, Real.sin⟩
      (togglePause (constructed ⟨Real.pi, Real.cos, Real.sin⟩ random)) 0 hp
    refine ⟨hp, hs, hb, ?_, ?_⟩
    · rw [p1]
      show (constructed ⟨Real.pi, Real.cos, Real.sin⟩ random).sunRotationY
        + 0.001 * (constructed ⟨Real.pi, Real.cos, Real.sin⟩ random).speed = 0.002
      rw [hs, hsp]
      norm_num
    · rw [p2]
      show (constructed ⟨Real.pi, Real.cos, Real.sin⟩ random).asteroidBeltRotationY
        + 0.0001 * (constructed ⟨Real.pi, Real.cos, Real.sin⟩ random).speed = 0.0002
      rw [hb, hsp]
      norm_num

/-! ## The Sun in the tour, and the retrograde branch -/

/-- C14, evaluated on the code: `planets` has no entry `sun`, so the tour step
that reads `sun` (the first step after the tour is switched on) records no call
of `animateCameraTo`; the next step, which reads `mercury`, records one, toward
Mercury's position plus `(20, 10, 20)` with Mercury's position as look-at
target.  This is shown in the state before the first frame (all meshes at the
origin) and, for every `Math` library, in the constructed object after the
tour-mode click (Mercury at its orbit position after the first frame). -/
theorem tour_sun_step_requests_no_camera (random : String → K) :
    List.lookup "sun" (createEnhancedPlanets random) = none
      ∧ (startTour { initial random with isTourMode := true }).visited = [some "sun"]
      ∧ (startTour { initial random with isTourMode := true }).cameraRequests = []
      ∧ (tourTimerFires (startTour { initial random with isTourMode := true })).visited
          = [some "sun", some "mercury"]
      ∧ (tourTimerFires (startTour { initial random with isTourMode := true })).cameraRequests
          = [((⟨0, 0, 0⟩ : Vec3 K).add ⟨20, 10, 20⟩, ⟨0, 0, 0⟩)]
      ∧ ∀ M : MathLib K,
        List.lookup "sun" (constructed M random).planets = none
        ∧ (tourModeClick (constructed M random)).visited = [some "sun"]
        ∧ (tourModeClick (constructed M random)).cameraRequests = []
        ∧ (tourTimerFires (tourModeClick (constructed M random))).visited
            = [some "sun", some "mercury"]
        ∧ (tourTimerFires (tourModeClick (constructed M random))).cameraRequests
            = [((updatePlanet M (1 * 0.001 * 1) 0
                  { data := mercury, angle := random "mercury", rotationAngle := 0,
                    position := ⟨0, 0, 0⟩, rotationY := 0 }).position.add ⟨20, 10, 20⟩,
                (updatePlanet M (1 * 0.001 * 1) 0
                  { data := mercury, angle := random "mercury", rotationAngle := 0,
                    position := ⟨0, 0, 0⟩, rotationY := 0 }).position)] := by
  have hsun : List.lookup "sun" (createEnhancedPlanets random) = none := by
    simp [createEnhancedPlanets, planetData, List.lookup]
  have hmercury : List.lookup "mercury" (createEnhancedPlanets random)
      = some { data := mercury, angle := random "mercury", rotationAngle := 0,
               position := ⟨0, 0, 0⟩, rotationY := 0 } := by
    simp [createEnhancedPlanets, planetData, List.lookup]
  have h0 : startTour { initial random with isTourMode := true }
      = { initial random with isTourMode := true, tourIndex := 1, visited := [some "sun"],
                              pendingTimers := 1 } := by
    simp [startTour, performTourStep, tourPlanets, initial, hsun]
  have hconstructed : ∀ M : MathLib K,
      List.lookup "sun" (constructed M random).planets = none
      ∧ (tourModeClick (constructed M random)).visited = [some "sun"]
      ∧ (tourModeClick (constructed M random)).cameraRequests = []
      ∧ (tourTimerFires (tourModeClick (constructed M random))).visited
          = [some "sun", some "mercury"]
      ∧ (tourTimerFires (tourModeClick (constructed M random))).cameraRequests
          = [((updatePlanet M (1 * 0.001 * 1) 0
                { data := mercury, angle := random "mercury", rotationAngle := 0,
                  position := ⟨0, 0, 0⟩, rotationY := 0 }).position.add ⟨20, 10, 20⟩,
              (updatePlanet M (1 * 0.001 * 1) 0
                { data := mercury, angle := random "mercury", rotationAngle := 0,
                  position := ⟨0, 0, 0⟩, rotationY := 0 }).position)] := by
    intro M
    obtain ⟨t1, t2, t3, t4⟩ := constructed_tour_fields M random
    obtain ⟨l1, l2⟩ := constructed_lookup M random
    obtain ⟨s1, s2, s3⟩ := tourModeClick_sun_step (constructed M random) t1 l1
    refine ⟨l1, by rw [s1, t2]; rfl, by rw [s2, t3], ?_, ?_⟩ <;>
      rw [s3] <;>
      simp [tourTimerFires, performTourStep, tourPlanets, l2, animateCameraTo, t2, t3]
  refine ⟨hsun, by rw [h0], by rw [h0]; rfl, ?_, ?_, hconstructed⟩ <;>
    rw [h0] <;>
    simp [tourTimerFires, performTourStep, tourPlanets, initial, hmercury, animateCameraTo]

/-- C15, evaluated on the code: among the eight planets only Venus has a
`rotationPeriod` that is not positive, so only Venus takes the retrograde
branch; Uranus has `rotationPeriod = 17.2 > 0`, and with speed 1, forward time
and a clock delta of 1 its rotation angle grows from 0 to a positive value. -/
theorem retrograde_branch_only_venus :
    ((planetData : List (String × PlanetData ℝ)).filter
        (fun e => decide (¬ e.2.rotationPeriod > 0))).map Prod.fst = ["venus"]
      ∧ (uranus : PlanetData ℝ).rotationPeriod = 17.2
      ∧ 0 < (updatePlanet ⟨Real.pi, Real.cos, Real.sin⟩ (1 * 0.001 * 1) 1
              { data := (uranus : PlanetData ℝ), angle := 0, rotationAngle := 0,
                position := ⟨0, 0, 0⟩, rotationY := 0 }).rotationAngle := by
  refine ⟨?_, rfl, ?_⟩
  · simp only [planetData, mercury, venus, earth, mars, jupiter, saturn, uranus, neptune]
    norm_num [List.filter]
  · rw [updatePlanet_rotationAngle_of_pos _ _ _ _ (by norm_num [uranus])]
    have := Real.pi_pos
    simp only [uranus]
    positivity

/-! ## Shape of the easing curve -/

/-- C16: the eased progress `1 - (1 - t)³` with `t = min (elapsed / 2000) 1` is
monotonically non-decreasing in the elapsed time, is 0 at `t = 0` and 1 at
`t = 1`, lies in `[0, 1]` for every elapsed time `≥ 0`, and exceeds `t` for every
`0 < t < 1` (it is not linear). -/
theorem eased_progress_shape :
    (∀ t : K, easedProgress t = 1 - (1 - t) ^ 3)
      ∧ (∀ elapsed : K, progress elapsed = min (elapsed / 2000) 1)
      ∧ easedProgress (0 : K) = 0
      ∧ easedProgress (1 : K) = 1
      ∧ (∀ e1 e2 : K, e1 ≤ e2 →
          easedProgress (progress e1) ≤ easedProgress (progress e2))
      ∧ (∀ elapsed : K, 0 ≤ elapsed →
          0 ≤ easedProgress (progress elapsed) ∧ easedProgress (progress elapsed) ≤ 1)
      ∧ (∀ t : K, 0 < t → t < 1 → t < easedProgress t) := by
  have hmono : ∀ a b : K, a ≤ b → easedProgress a ≤ easedProgress b := by
    intro a b hab
    unfold easedProgress
    have hq : 0 ≤ (1 - a) ^ 2 + (1 - a) * (1 - b) + (1 - b) ^ 2 := by
      nlinarith [sq_nonneg ((1 - a) + (1 - b)), sq_nonneg (1 - a), sq_nonneg (1 - b)]
    nlinarith [mul_nonneg (sub_nonneg.mpr hab) hq]
  have hprog : ∀ a b : K, a ≤ b → progress a ≤ progress b := by
    intro a b hab
    unfold progress duration
    exact min_le_min (div_le_div_of_nonneg_right hab (by norm_num)) le_rfl
  have e0 : easedProgress (0 : K) = 0 := by simp [easedProgress]
  have e1 : easedProgress (1 : K) = 1 := by simp [easedProgress]
  refine ⟨fun _ => rfl, fun _ => rfl, e0, e1, ?_, ?_, ?_⟩
  · intro a b hab
    exact hmono _ _ (hprog a b hab)
  · intro elapsed h
    have h0 : 0 ≤ progress elapsed := by
      unfold progress duration
      exact le_min (div_nonneg h (by norm_num)) zero_le_one
    have h1 : progress elapsed ≤ 1 := by
      unfold progress
      exact min_le_right _ _
    exact ⟨e0 ▸ hmono _ _ h0, e1 ▸ hmono _ _ h1⟩
  · intro t h0 h1
    unfold easedProgress
    have h2 : 0 < (1 - t) * t * (2 - t) := by
      have : 0 < 1 - t := by linarith
      have : 0 < 2 - t := by linarith
      positivity
    nlinarith [h2]

theorem eased_progress_shape_witness :
    (500 : ℚ) ≤ 1500 ∧ (0 : ℚ) ≤ 500 ∧ (0 : ℚ) < 1 / 2 ∧ (1 / 2 : ℚ) < 1
      ∧ easedProgress (progress (500 : ℚ)) ≤ easedProgress (progress (1500 : ℚ))
      ∧ (0 ≤ easedProgress (progress (500 : ℚ)) ∧ easedProgress (progress (500 : ℚ)) ≤ 1)
      ∧ (1 / 2 : ℚ) < easedProgress (1 / 2) :=
  ⟨by norm_num, by norm_num, by norm_num, by norm_num,
   eased_progress_shape.2.2.2.2.1 500 1500 (by norm_num),
   eased_progress_shape.2.2.2.2.2.1 500 (by norm_num),
   eased_progress_shape.2.2.2.2.2.2 (1 / 2) (by norm_num) (by norm_num)⟩

/-! ## The direction sign -/

theorem performTourStep_timeDirection (s : Sim K) :
    (performTourStep s).timeDirection = s.timeDirection := by
  unfold performTourStep
  split
  · rfl
  · dsimp only
    split <;> rfl

theorem control_apply_timeDirection (c : Control K) (s : Sim K)
    (h : s.timeDirection = 1 ∨ s.timeDirection = -1) :
    (c.apply s).timeDirection = 1 ∨ (c.apply s).timeDirection = -1 := by
  cases c with
  | timeReversalClick =>
    show s.timeDirection * -1 = 1 ∨ s.timeDirection * -1 = -1
    rcases h with h | h <;> rw [h] <;> simp
  | keyDown code =>
    cases code
    · exact h
    · exact h
    · exact h
    · exact Or.inr rfl
    · exact Or.inl rfl
    · exact h
  | resetTime => exact Or.inl rfl
  | togglePause => exact h
  | setCenturyView => exact h
  | resetView => exact h
  | setSpeed value => exact h
  | tourModeClick =>
    show (tourModeClick s).timeDirection = 1 ∨ (tourModeClick s).timeDirection = -1
    have : (tourModeClick s).timeDirection = s.timeDirection := by
      unfold tourModeClick startTour
      dsimp only
      split
      · rw [performTourStep_timeDirection]
      · rfl
    rw [this]
    exact h
  | tourTimerFires =>
    show (tourTimerFires s).timeDirection = 1 ∨ (tourTimerFires s).timeDirection = -1
    have : (tourTimerFires s).timeDirection = s.timeDirection := by
      unfold tourTimerFires
      split
      · rfl
      · dsimp only
        split
        · rw [performTourStep_timeDirection]
        · rfl
    rw [this]
    exact h

theorem runControls_timeDirection (cs : List (Control K)) (s : Sim K)
    (h : s.timeDirection = 1 ∨ s.timeDirection = -1) :
    (runControls s cs).timeDirection = 1 ∨ (runControls s cs).timeDirection = -1 := by
  induction cs generalizing s with
  | nil => exact h
  | cons c cs ih => exact ih _ (control_apply_timeDirection c s h)

/-- C17: in every state reached from the state built by the constructor by any sequence of
the controls (time-reversal click, any key including ArrowLeft and ArrowRight,
resetTime, togglePause, setCenturyView, resetView, the speed controls, the tour
toggle and the dwell timer), `timeDirection` is `1` or `-1`. -/
theorem timeDirection_is_sign (random : String → K) (cs : List (Control K)) :
    (runControls (initial random) cs).timeDirection = 1
      ∨ (runControls (initial random) cs).timeDirection = -1 :=
  runControls_timeDirection cs (initial random) (Or.inl rfl)

/-! ## Overlapping dwell timers -/

/-- C18, evaluated on the code: from the state built by the constructor, switching the tour
on, off and on again before the first dwell timer has fired leaves two dwell
timers pending with the tour active; when both fire, each executes a step, so
after the two `sun` steps of the two activations `mercury` and `venus` are both
read within one dwell, and two timers stay pending. -/
theorem tour_reactivation_stacks_timers :
    (runControls (initial (fun _ => (0 : ℚ)))
        [.tourModeClick, .tourModeClick, .tourModeClick]).pendingTimers = 2
      ∧ (runControls (initial (fun _ => (0 : ℚ)))
          [.tourModeClick, .tourModeClick, .tourModeClick]).isTourMode = true
      ∧ (runControls (initial (fun _ => (0 : ℚ)))
          [.tourModeClick, .tourModeClick, .tourModeClick, .tourTimerFires,
           .tourTimerFires]).visited
          = [some "sun", some "sun", some "mercury", some "venus"]
      ∧ (runControls (initial (fun _ => (0 : ℚ)))
          [.tourModeClick, .tourModeClick, .tourModeClick, .tourTimerFires,
           .tourTimerFires]).pendingTimers = 2 := by
  refine ⟨by decide, by decide, by decide, by decide⟩

/-! ## Distance of a planet from the origin (real cosine and sine) -/

/-- The ellipse radius lies between `a (1 - e)` and `a (1 + e)`. -/
theorem orbitRadius_bounds (data : PlanetData ℝ) (trueAnomaly : ℝ) (hd : 0 ≤ data.distance) :
    data.distance * (1 - 0.0167) ≤ orbitRadius ⟨Real.pi, Real.cos, Real.sin⟩ data trueAnomaly
      ∧ orbitRadius ⟨Real.pi, Real.cos, Real.sin⟩ data trueAnomaly
          ≤ data.distance * (1 + 0.0167) := by
  simp only [orbitRadius, eccentricity]
  have hc1 := Real.neg_one_le_cos trueAnomaly
  have hc2 := Real.cos_le_one trueAnomaly
  have hpos : (0 : ℝ) < 1 + 0.0167 * Real.cos trueAnomaly := by linarith
  constructor
  · rw [le_div_iff₀ hpos]
    nlinarith [mul_nonneg hd (sub_nonneg.mpr hc2)]
  · rw [div_le_iff₀ hpos]
    nlinarith [mul_nonneg hd (by linarith : (0 : ℝ) ≤ 1 + Real.cos trueAnomaly)]

/-- The inclination tilt keeps the distance from the origin: the squared norm
of the position is the square of the ellipse radius. -/
theorem orbitPosition_norm_sq (data : PlanetData ℝ) (trueAnomaly : ℝ) :
    (orbitPosition ⟨Real.pi, Real.cos, Real.sin⟩ data trueAnomaly).x ^ 2
        + (orbitPosition ⟨Real.pi, Real.cos, Real.sin⟩ data trueAnomaly).y ^ 2
        + (orbitPosition ⟨Real.pi, Real.cos, Real.sin⟩ data trueAnomaly).z ^ 2
      = orbitRadius ⟨Real.pi, Real.cos, Real.sin⟩ data trueAnomaly ^ 2 := by
  simp only [orbitPosition]
  generalize orbitRadius ⟨Real.pi, Real.cos, Real.sin⟩ data trueAnomaly = r
  generalize degToRad ⟨Real.pi, Real.cos, Real.sin⟩ data.orbitalInclination = i
  have h1 := Real.sin_sq_add_cos_sq trueAnomaly
  have h2 := Real.sin_sq_add_cos_sq i
  have : (r * Real.cos trueAnomaly) ^ 2 + (r * Real.sin trueAnomaly * Real.sin i) ^ 2
        + (r * Real.sin trueAnomaly * Real.cos i) ^ 2
      = r ^ 2 * (Real.cos trueAnomaly ^ 2
          + Real.sin trueAnomaly ^ 2 * (Real.sin i ^ 2 + Real.cos i ^ 2)) := by ring
  rw [this, h2, mul_one, add_comm (Real.cos trueAnomaly ^ 2), h1, mul_one]

/-- C19: for every planet whose `distance` is not negative (all eight are
positive), every orbital angle, time scale and clock delta, the position set by
the update has squared norm `r²` with `r` the ellipse radius at the new angle,
`r` lies in `[distance (1 - 0.0167), distance (1 + 0.0167)]`, and so does the
distance `√(x² + y² + z²)` of the position from the origin. -/
theorem position_distance_bounds (timeScale deltaTime : ℝ) (p : Planet ℝ)
    (hd : 0 ≤ p.data.distance) :
    (∀ e ∈ (planetData : List (String × PlanetData ℝ)), 0 < e.2.distance)
      ∧ (updatePlanet ⟨Real.pi, Real.cos, Real.sin⟩ timeScale deltaTime p).position.x ^ 2
          + (updatePlanet ⟨Real.pi, Real.cos, Real.sin⟩ timeScale deltaTime p).position.y ^ 2
          + (updatePlanet ⟨Real.pi, Real.cos, Real.sin⟩ timeScale deltaTime p).position.z ^ 2
        = orbitRadius ⟨Real.pi, Real.cos, Real.sin⟩ p.data
            (updatePlanet ⟨Real.pi, Real.cos, Real.sin⟩ timeScale deltaTime p).angle ^ 2
      ∧ p.data.distance * (1 - 0.0167)
          ≤ orbitRadius ⟨Real.pi, Real.cos, Real.sin⟩ p.data
              (updatePlanet ⟨Real.pi, Real.cos, Real.sin⟩ timeScale deltaTime p).angle
      ∧ orbitRadius ⟨Real.pi, Real.cos, Real.sin⟩ p.data
            (updatePlanet ⟨Real.pi, Real.cos, Real.sin⟩ timeScale deltaTime p).angle
          ≤ p.data.distance * (1 + 0.0167)
      ∧ p.data.distance * (1 - 0.0167)
          ≤ Real.sqrt
              ((updatePlanet ⟨Real.pi, Real.cos, Real.sin⟩ timeScale deltaTime p).position.x ^ 2
                + (updatePlanet ⟨Real.pi, Real.cos, Real.sin⟩ timeScale deltaTime p).position.y ^ 2
                + (updatePlanet ⟨Real.pi, Real.cos, Real.sin⟩ timeScale deltaTime p).position.z ^ 2)
      ∧ Real.sqrt
            ((updatePlanet ⟨Real.pi, Real.cos, Real.sin⟩ timeScale deltaTime p).position.x ^ 2
              + (updatePlanet ⟨Real.pi, Real.cos, Real.sin⟩ timeScale deltaTime p).position.y ^ 2
              + (updatePlanet ⟨Real.pi, Real.cos, Real.sin⟩ timeScale deltaTime p).position.z ^ 2)
          ≤ p.data.distance * (1 + 0.0167) := by
  have hall : ∀ e ∈ (planetData : List (String × PlanetData ℝ)), 0 < e.2.distance := by
    intro e he
    simp only [planetData, List.mem_cons, List.mem_singleton, List.not_mem_nil, or_false] at he
    rcases he with h | h | h | h | h | h | h | h <;> rw [h] <;>
      norm_num [mercury, venus, earth, mars, jupiter, saturn, uranus, neptune]
  have hb := orbitRadius_bounds p.data
    (updatePlanet ⟨Real.pi, Real.cos, Real.sin⟩ timeScale deltaTime p).angle hd
  have hn : (updatePlanet ⟨Real.pi, Real.cos, Real.sin⟩ timeScale deltaTime p).position.x ^ 2
        + (updatePlanet ⟨Real.pi, Real.cos, Real.sin⟩ timeScale deltaTime p).position.y ^ 2
        + (updatePlanet ⟨Real.pi, Real.cos, Real.sin⟩ timeScale deltaTime p).position.z ^ 2
      = orbitRadius ⟨Real.pi, Real.cos, Real.sin⟩ p.data
          (updatePlanet ⟨Real.pi, Real.cos, Real.sin⟩ timeScale deltaTime p).angle ^ 2 := by
    rw [updatePlanet_position]
    exact orbitPosition_norm_sq _ _
  have hr : 0 ≤ orbitRadius ⟨Real.pi, Real.cos, Real.sin⟩ p.data
      (updatePlanet ⟨Real.pi, Real.cos, Real.sin⟩ timeScale deltaTime p).angle := by
    have : 0 ≤ p.data.distance * (1 - 0.0167) := by positivity
    linarith [hb.1]
  refine ⟨hall, hn, hb.1, hb.2, ?_, ?_⟩
  · rw [hn, Real.sqrt_sq hr]
    exact hb.1
  · rw [hn, Real.sqrt_sq hr]
    exact hb.2

theorem position_distance_bounds_witness :
    (0 : ℝ) ≤ (earth : PlanetData ℝ).distance
      ∧ (earth : PlanetData ℝ).distance * (1 - 0.0167)
          ≤ orbitRadius ⟨Real.pi, Real.cos, Real.sin⟩ (earth : PlanetData ℝ)
              (updatePlanet ⟨Real.pi, Real.cos, Real.sin⟩ 0.001 2
                { data := (earth : PlanetData ℝ), angle := 1, rotationAngle := 0,
                  position := ⟨0, 0, 0⟩, rotationY := 0 }).angle :=
  ⟨by norm_num [earth],
   (position_distance_bounds 0.001 2
      { data := (earth : PlanetData ℝ), angle := 1, rotationAngle := 0,
        position := ⟨0, 0, 0⟩, rotationY := 0 } (by norm_num [earth])).2.2.1⟩

/-! ## Pausing and the clock -/

theorem togglePause_togglePause {F : Type} (s : Sim F) : togglePause (togglePause s) = s := by
  cases s
  simp [togglePause]

theorem runFramesAt_append (M : MathLib K) (st : Sim K × Clock K) (xs ys : List K) :
    runFramesAt M st (xs ++ ys) = runFramesAt M (runFramesAt M st xs) ys := by
  induction xs generalizing st with
  | nil => rfl
  | cons t xs ih => exact ih _

theorem runFramesAt_paused (M : MathLib K) (st : Sim K × Clock K) (times : List K)
    (hp : st.1.isPaused = true) : runFramesAt M st times = st := by
  induction times with
  | nil => rfl
  | cons t times ih =>
    have h : updatePlanetPositionsAt M t st = st := by
      simp [updatePlanetPositionsAt, hp]
    simp only [runFramesAt, h, ih]

theorem updatePlanetPositionsAt_running (M : MathLib K) (s : Sim K) (c : Clock K) (t : K)
    (hs : s.isPaused = false) (hc : c.running = true) :
    updatePlanetPositionsAt M t (s, c)
      = (updatePlanetPositions M s ((t - c.oldTime) / 1000), { running := true, oldTime := t }) := by
  simp [updatePlanetPositionsAt, Clock.getDelta, hs, hc]

/-- Unpaused frames telescope: the clock ends at the time of the last frame and
every orbital angle has advanced by the rate times the whole span. -/
theorem runFramesAt_unpaused (M : MathLib K) (times : List K) (s : Sim K) (c : Clock K)
    (hs : s.isPaused = false) (hc : c.running = true) :
    (runFramesAt M (s, c) times).2 = { running := true, oldTime := times.getLastD c.oldTime }
      ∧ (runFramesAt M (s, c) times).1.isPaused = false
      ∧ (runFramesAt M (s, c) times).1.planets.map (fun e => (e.1, e.2.angle))
          = s.planets.map (fun e => (e.1,
              e.2.angle + 2 * M.PI / e.2.data.orbitalPeriod * (s.speed * 0.001 * s.timeDirection)
                * ((times.getLastD c.oldTime - c.oldTime) / 1000) * 1000))
      ∧ (runFramesAt M (s, c) times).1.planets.map (fun e => (e.1, e.2.data))
          = s.planets.map (fun e => (e.1, e.2.data))
      ∧ (runFramesAt M (s, c) times).1.speed = s.speed
      ∧ (runFramesAt M (s, c) times).1.timeDirection = s.timeDirection := by
  induction times generalizing s c with
  | nil =>
    refine ⟨?_, hs, ?_, rfl, rfl, rfl⟩
    · cases c
      simp_all [runFramesAt]
    · simp [runFramesAt]
  | cons t times ih =>
    have hstep := updatePlanetPositionsAt_running M s c t hs hc
    have hs1 : (updatePlanetPositions M s ((t - c.oldTime) / 1000)).isPaused = false := by
      rw [updatePlanetPositions_isPaused]; exact hs
    obtain ⟨i1, i2, i3, i4, i5, i6⟩ :=
      ih (updatePlanetPositions M s ((t - c.oldTime) / 1000)) { running := true, oldTime := t }
        hs1 rfl
    have hpl := updatePlanetPositions_planets M s ((t - c.oldTime) / 1000) hs
    have hsp : (updatePlanetPositions M s ((t - c.oldTime) / 1000)).speed = s.speed :=
      updatePlanetPositions_speed _ _ _
    have htd : (updatePlanetPositions M s ((t - c.oldTime) / 1000)).timeDirection
        = s.timeDirection := by
      unfold updatePlanetPositions
      split <;> rfl
    simp only [runFramesAt, hstep, List.getLastD_cons]
    refine ⟨i1, i2, ?_, ?_, i5.trans hsp, i6.trans htd⟩
    · rw [i3, hpl, List.map_map]
      apply List.map_congr_left
      intro e _
      simp only [Function.comp, updatePlanet_angle, updatePlanet_data, hsp, htd]
      congr 1
      ring
    · rw [i4, hpl, List.map_map]
      apply List.map_congr_left
      intro e _
      simp only [Function.comp, updatePlanet_data]

/-- C20: start from an unpaused simulation with a running clock.  Run frames at
the times `pre`, pause, run frames at the times `during` (they leave the state
and the clock as they are), resume, and run a frame at time `resume`: its clock
delta spans the time since the last frame before the pause, and the orbital
angles after it equal the orbital angles of a run that was never paused and had
frames at any times `other` followed by the frame at `resume`. -/
theorem resume_catches_up (M : MathLib K) (s : Sim K) (c : Clock K)
    (pre during other : List K) (resume : K)
    (hs : s.isPaused = false) (hc : c.running = true) :
    runFramesAt M (togglePause (runFramesAt M (s, c) pre).1, (runFramesAt M (s, c) pre).2) during
        = (togglePause (runFramesAt M (s, c) pre).1, (runFramesAt M (s, c) pre).2)
      ∧ ((runFramesAt M (s, c) pre).2.getDelta resume).1
          = (resume - pre.getLastD c.oldTime) / 1000
      ∧ orbitalAngles
          (updatePlanetPositionsAt M resume
            (togglePause
              (runFramesAt M
                (togglePause (runFramesAt M (s, c) pre).1, (runFramesAt M (s, c) pre).2)
                during).1,
             (runFramesAt M
                (togglePause (runFramesAt M (s, c) pre).1, (runFramesAt M (s, c) pre).2)
                during).2)).1
        = orbitalAngles (runFramesAt M (s, c) (other ++ [resume])).1 := by
  have hpre := runFramesAt_unpaused M pre s c hs hc
  have hpaused : (togglePause (runFramesAt M (s, c) pre).1).isPaused = true := by
    simp [togglePause, hpre.2.1]
  have hduring := runFramesAt_paused M
    (togglePause (runFramesAt M (s, c) pre).1, (runFramesAt M (s, c) pre).2) during hpaused
  refine ⟨hduring, ?_, ?_⟩
  · rw [hpre.1]
    simp [Clock.getDelta]
  · rw [hduring]
    simp only [togglePause_togglePause]
    have hwith : updatePlanetPositionsAt M resume
          ((runFramesAt M (s, c) pre).1, (runFramesAt M (s, c) pre).2)
        = runFramesAt M (s, c) (pre ++ [resume]) := by
      rw [runFramesAt_append]
      rfl
    rw [hwith]
    have h1 := (runFramesAt_unpaused M (pre ++ [resume]) s c hs hc).2.2.1
    have h2 := (runFramesAt_unpaused M (other ++ [resume]) s c hs hc).2.2.1
    simp only [List.getLastD_concat] at h1 h2
    unfold orbitalAngles
    rw [h1, h2]

theorem resume_catches_up_witness :
    (initial (fun _ => (0 : ℝ))).isPaused = false
      ∧ ({ running := true, oldTime := 0 } : Clock ℝ).running = true
      ∧ orbitalAngles
          (updatePlanetPositionsAt ⟨Real.pi, Real.cos, Real.sin⟩ 5000
            (togglePause
              (runFramesAt ⟨Real.pi, Real.cos, Real.sin⟩
                (togglePause (runFramesAt ⟨Real.pi, Real.cos, Real.sin⟩
                    (initial (fun _ => (0 : ℝ)), { running := true, oldTime := 0 }) [16, 32]).1,
                 (runFramesAt ⟨Real.pi, Real.cos, Real.sin⟩
                    (initial (fun _ => (0 : ℝ)), { running := true, oldTime := 0 }) [16, 32]).2)
                [48, 64]).1,
             (runFramesAt ⟨Real.pi, Real.cos, Real.sin⟩
                (togglePause (runFramesAt ⟨Real.pi, Real.cos, Real.sin⟩
                    (initial (fun _ => (0 : ℝ)), { running := true, oldTime := 0 }) [16, 32]).1,
                 (runFramesAt ⟨Real.pi, Real.cos, Real.sin⟩
                    (initial (fun _ => (0 : ℝ)), { running := true, oldTime := 0 }) [16, 32]).2)
                [48, 64]).2)).1
        = orbitalAngles (runFramesAt ⟨Real.pi, Real.cos, Real.sin⟩
            (initial (fun _ => (0 : ℝ)), { running := true, oldTime := 0 })
            ([16, 32, 48, 64] ++ [5000])).1 :=
  ⟨rfl, rfl,
   (resume_catches_up ⟨Real.pi, Real.cos, Real.sin⟩ (initial (fun _ => (0 : ℝ)))
      { running := true, oldTime := 0 } [16, 32] [48, 64] [16, 32, 48, 64] 5000 rfl rfl).2.2⟩

/-! ## Divisors of the integrator -/

theorem updatePlanetPositions_data (M : MathLib K) (s : Sim K) (deltaTime : K) :
    (updatePlanetPositions M s deltaTime).planets.map (fun e => (e.1, e.2.data))
      = s.planets.map (fun e => (e.1, e.2.data)) := by
  unfold updatePlanetPositions
  split
  · rfl
  · simp only [List.map_map]
    apply List.map_congr_left
    intro e _
    simp only [Function.comp, updatePlanet_data]

theorem runFrames_data (M : MathLib K) (frames : List (K × K)) (s : Sim K) :
    (runFrames M s frames).planets.map (fun e => (e.1, e.2.data))
      = s.planets.map (fun e => (e.1, e.2.data)) := by
  induction frames generalizing s with
  | nil => rfl
  | cons f frames ih =>
    obtain ⟨dir, dt⟩ := f
    simp only [runFrames]
    rw [ih, updatePlanetPositions_data]

theorem createEnhancedPlanets_data (random : String → K) :
    (createEnhancedPlanets random).map (fun e => (e.1, e.2.data)) = planetData := by
  simp [createEnhancedPlanets, planetData]

/-- C21: no division of `updatePlanetPositions` has a zero divisor.  After any
run of frames from the state built by the constructor the planets are the eight bodies
mercury ... neptune with the descriptors of `planetData` (`sun` is not among
them); each of these has `orbitalPeriod > 0` and `rotationPeriod ≠ 0`, so the
divisor used for the rotation speed (`rotationPeriod` in the positive branch,
`|rotationPeriod|` in the other) is not zero; and for every orbital angle the
ellipse denominator `1 + 0.0167 · cos angle` is at least `1 - 0.0167`, which is
positive. -/
theorem no_zero_divisor (random : String → ℝ) (frames : List (ℝ × ℝ)) (angle : ℝ) :
    (runFrames ⟨Real.pi, Real.cos, Real.sin⟩ (initial random) frames).planets.map
        (fun e => (e.1, e.2.data)) = planetData
      ∧ (planetData : List (String × PlanetData ℝ)).map Prod.fst
          = ["mercury", "venus", "earth", "mars", "jupiter", "saturn", "uranus", "neptune"]
      ∧ List.lookup "sun" (runFrames ⟨Real.pi, Real.cos, Real.sin⟩ (initial random)
          frames).planets = none
      ∧ (∀ e ∈ (planetData : List (String × PlanetData ℝ)),
          0 < e.2.orbitalPeriod ∧ e.2.rotationPeriod ≠ 0
            ∧ (if e.2.rotationPeriod > 0 then e.2.rotationPeriod else |e.2.rotationPeriod|) ≠ 0)
      ∧ (eccentricity : ℝ) = 0.0167
      ∧ (1 : ℝ) - 0.0167 ≤ 1 + eccentricity * Real.cos angle
      ∧ (0 : ℝ) < 1 - 0.0167 := by
  have hdata : (runFrames ⟨Real.pi, Real.cos, Real.sin⟩ (initial random) frames).planets.map
      (fun e => (e.1, e.2.data)) = planetData := by
    rw [runFrames_data]
    exact createEnhancedPlanets_data random
  have hsun : List.lookup "sun" (runFrames ⟨Real.pi, Real.cos, Real.sin⟩ (initial random)
      frames).planets = none := by
    rw [List.lookup_eq_none_iff]
    intro e he
    have hmem : (e.1, e.2.data) ∈ (planetData : List (String × PlanetData ℝ)) := by
      rw [← hdata]
      exact List.mem_map_of_mem (fun e => (e.1, e.2.data)) he
    simp only [planetData, List.mem_cons, List.mem_singleton, List.not_mem_nil, or_false,
      Prod.mk.injEq] at hmem
    rcases hmem with h | h | h | h | h | h | h | h <;>
      · rw [h.1]
        decide
  refine ⟨hdata, rfl, hsun, ?_, rfl, ?_, by norm_num⟩
  · intro e he
    simp only [planetData, List.mem_cons, List.mem_singleton, List.not_mem_nil, or_false] at he
    rcases he with h | h | h | h | h | h | h | h <;> rw [h] <;>
      norm_num [mercury, venus, earth, mars, jupiter, saturn, uranus, neptune]
  · have hc := Real.neg_one_le_cos angle
    simp only [eccentricity]
    linarith

end SolarSystem
